import Mathlib

/-!
Verification of the exercise repetition detector.

This development embeds the pose-to-rep detector (push-up, squat, sit-up
variants) in Lean: the geometry helpers (`calculateDistance`,
`calculateAngle`, `getKeypoint`, `getMeanConfidence`), the shared detector
state, and the three per-exercise `detectRep` state machines, together with
theorems about rep counting, gating, debouncing and reset behaviour.

Numbers are modelled by the real numbers; frame counters by naturals.
-/

open Real

/-- Keypoint: a 2D position plus a confidence score. -/
structure Keypoint where
  x : ℝ
  y : ℝ
  score : ℝ

/-- Pose: the keypoints of one frame (17-point skeletal layout) plus an
overall score. -/
structure Pose where
  keypoints : List Keypoint
  score : ℝ

/-- Euclidean distance between two keypoints. -/
noncomputable def calculateDistance (p1 p2 : Keypoint) : ℝ :=
  Real.sqrt ((p1.x - p2.x) ^ 2 + (p1.y - p2.y) ^ 2)

/-- Interior angle at vertex `b` formed by rays `b`→`a` and `b`→`c`, via the
dot-product/arccosine formula, clamped to [-1, 1], in degrees. Returns 0 when
either ray has zero length. -/
noncomputable def calculateAngle (a b c : Keypoint) : ℝ :=
  let bax := a.x - b.x
  let bay := a.y - b.y
  let bcx := c.x - b.x
  let bcy := c.y - b.y
  let dotProduct := bax * bcx + bay * bcy
  let baLength := Real.sqrt (bax ^ 2 + bay ^ 2)
  let bcLength := Real.sqrt (bcx ^ 2 + bcy ^ 2)
  if baLength = 0 ∨ bcLength = 0 then 0
  else
    let cosAngle := dotProduct / (baLength * bcLength)
    Real.arccos (min 1 (max (-1) cosAngle)) * (180 / Real.pi)

/-- Confidence-gated landmark lookup: the keypoint at `index` when it exists
and its score exceeds 0.3, otherwise `none`. -/
noncomputable def getKeypoint (pose : Pose) (index : ℕ) : Option Keypoint :=
  match pose.keypoints[index]? with
  | some kp => if kp.score > 0.3 then some kp else none
  | none => none

/-- Mean of the scores of the present keypoints; 0 when none is present. -/
noncomputable def getMeanConfidence (keypoints : List (Option Keypoint)) : ℝ :=
  let validKeypoints := keypoints.filterMap id
  if validKeypoints.length = 0 then 0
  else validKeypoints.foldl (fun sum kp => sum + kp.score) 0 / (validKeypoints.length : ℝ)

/-- Shared detector state (the fields of the `ExerciseDetector` base class). -/
@[ext]
structure DetectorState where
  lastReps : ℕ
  isInDownPosition : Bool
  lastAngle : ℝ
  formQuality : String
  frameCount : ℕ
  lastRepFrameCount : ℕ

/-- State of a freshly constructed detector (the field initializers). -/
def initState : DetectorState :=
  { lastReps := 0, isInDownPosition := false, lastAngle := 0,
    formQuality := "Good", frameCount := 0, lastRepFrameCount := 0 }

/-- getReps accessor. -/
def getReps (s : DetectorState) : ℕ := s.lastReps

/-- getFormFeedback accessor. -/
def getFormFeedback (s : DetectorState) : String := s.formQuality

/-- reset: zero the counters, the phase flag and the last angle
(`formQuality` is not touched by the source). -/
def resetState (s : DetectorState) : DetectorState :=
  { s with lastReps := 0, isInDownPosition := false, lastAngle := 0,
           frameCount := 0, lastRepFrameCount := 0 }

/-- Minimum inter-rep frame gap, fixed at 10 across all variants. -/
def framesBetweenReps : ℕ := 10

/-- Minimum aggregate confidence, fixed at 0.5 across all variants. -/
noncomputable def minFormQuality : ℝ := 0.5

/-- Push-up start-position (fully extended) threshold. -/
noncomputable def pushupStartPositionThreshold : ℝ := 150

/-- Push-up end-position (fully flexed) threshold. -/
noncomputable def pushupEndPositionThreshold : ℝ := 25

/-- Squat start-position threshold. -/
noncomputable def squatStartPositionThreshold : ℝ := 140

/-- Squat end-position threshold. -/
noncomputable def squatEndPositionThreshold : ℝ := 85

/-- Sit-up start-position threshold (normalized proxy). -/
noncomputable def situpStartPositionThreshold : ℝ := 140

/-- Sit-up end-position threshold (normalized proxy). -/
noncomputable def situpEndPositionThreshold : ℝ := 100

/-- Push-up tracked metric: minimum of the left/right elbow angles
(shoulder-elbow-wrist), defaulting to 180 for a side whose triple is not
fully visible. -/
noncomputable def pushupElbowAngle (pose : Pose) : ℝ :=
  let a0 : ℝ := 180
  let a1 : ℝ :=
    match getKeypoint pose 5, getKeypoint pose 7, getKeypoint pose 9 with
    | some ls, some le, some lw => min a0 (calculateAngle ls le lw)
    | _, _, _ => a0
  match getKeypoint pose 6, getKeypoint pose 8, getKeypoint pose 10 with
  | some rs, some re, some rw => min a1 (calculateAngle rs re rw)
  | _, _, _ => a1

/-- Push-up aggregate confidence: mean over shoulders, elbows, wrists. -/
noncomputable def pushupConfidence (pose : Pose) : ℝ :=
  getMeanConfidence [getKeypoint pose 5, getKeypoint pose 7, getKeypoint pose 9,
    getKeypoint pose 6, getKeypoint pose 8, getKeypoint pose 10]

/-- Squat tracked metric: minimum of the left/right knee angles
(hip-knee-ankle), defaulting to 180 for a side not fully visible. -/
noncomputable def squatKneeAngle (pose : Pose) : ℝ :=
  let a0 : ℝ := 180
  let a1 : ℝ :=
    match getKeypoint pose 11, getKeypoint pose 13, getKeypoint pose 15 with
    | some lh, some lk, some la => min a0 (calculateAngle lh lk la)
    | _, _, _ => a0
  match getKeypoint pose 12, getKeypoint pose 14, getKeypoint pose 16 with
  | some rh, some rk, some ra => min a1 (calculateAngle rh rk ra)
  | _, _, _ => a1

/-- Squat aggregate confidence: mean over hips, knees, ankles. -/
noncomputable def squatConfidence (pose : Pose) : ℝ :=
  getMeanConfidence [getKeypoint pose 11, getKeypoint pose 13, getKeypoint pose 15,
    getKeypoint pose 12, getKeypoint pose 14, getKeypoint pose 16]

/-- Sit-up tracked metric: distance from the nose to the midpoint of the
hips, scaled by 50 and capped at 180; 0 when an essential landmark is
missing (the detector returns before using it in that case). -/
noncomputable def situpNormalizedAngle (pose : Pose) : ℝ :=
  match getKeypoint pose 0, getKeypoint pose 11, getKeypoint pose 12 with
  | some nose, some leftHip, some rightHip =>
    let hipMidpoint : Keypoint :=
      { x := (leftHip.x + rightHip.x) / 2, y := (leftHip.y + rightHip.y) / 2, score := 0.5 }
    min (calculateDistance nose hipMidpoint * 50) 180
  | _, _, _ => 0

/-- Sit-up aggregate confidence: mean over nose, hips, shoulders. -/
noncomputable def situpConfidence (pose : Pose) : ℝ :=
  getMeanConfidence [getKeypoint pose 0, getKeypoint pose 11, getKeypoint pose 12,
    getKeypoint pose 5, getKeypoint pose 6]

/-- PushupDetector.detectRep: one frame of the push-up state machine. -/
noncomputable def pushupDetectRep (s0 : DetectorState) (pose : Pose) : DetectorState × Bool :=
  let s1 : DetectorState := { s0 with frameCount := s0.frameCount + 1 }
  match getKeypoint pose 7, getKeypoint pose 8 with
  | some _, some _ =>
    let confidence := pushupConfidence pose
    let elbowAngle := pushupElbowAngle pose
    let s2 : DetectorState := { s1 with lastAngle := elbowAngle }
    if confidence < minFormQuality then
      ({ s2 with formQuality := "Low visibility - adjust your position" }, false)
    else
      let wasDown := s2.isInDownPosition
      let s3 : DetectorState :=
        { s2 with isInDownPosition := decide (elbowAngle < pushupEndPositionThreshold) }
      if wasDown = true ∧ ¬ s3.isInDownPosition = true then
        if pushupStartPositionThreshold < elbowAngle ∧
            s3.frameCount - s3.lastRepFrameCount > framesBetweenReps then
          ({ s3 with lastReps := s3.lastReps + 1, lastRepFrameCount := s3.frameCount,
                     formQuality := "Perfect! Rep counted" }, true)
        else if elbowAngle < pushupStartPositionThreshold then
          ({ s3 with formQuality := "Incomplete rep - extend fully" }, false)
        else
          (s3, false)
      else
        if s3.isInDownPosition = true then
          if elbowAngle < 15 then ({ s3 with formQuality := "Perfect form! Keep going" }, false)
          else if elbowAngle < 50 then ({ s3 with formQuality := "Good form - go lower" }, false)
          else ({ s3 with formQuality := "Go lower for full rep" }, false)
        else
          ({ s3 with formQuality := "Ready - Lower your body" }, false)
  | _, _ => ({ s1 with formQuality := "Position body with arms visible" }, false)

/-- SquatDetector.detectRep: one frame of the squat state machine. -/
noncomputable def squatDetectRep (s0 : DetectorState) (pose : Pose) : DetectorState × Bool :=
  let s1 : DetectorState := { s0 with frameCount := s0.frameCount + 1 }
  match getKeypoint pose 13, getKeypoint pose 14 with
  | some _, some _ =>
    let confidence := squatConfidence pose
    let kneeAngle := squatKneeAngle pose
    let s2 : DetectorState := { s1 with lastAngle := kneeAngle }
    if confidence < minFormQuality then
      ({ s2 with formQuality := "Low visibility - adjust your position" }, false)
    else
      let wasDown := s2.isInDownPosition
      let s3 : DetectorState :=
        { s2 with isInDownPosition := decide (kneeAngle < squatEndPositionThreshold) }
      if wasDown = true ∧ ¬ s3.isInDownPosition = true then
        if squatStartPositionThreshold < kneeAngle ∧
            s3.frameCount - s3.lastRepFrameCount > framesBetweenReps then
          ({ s3 with lastReps := s3.lastReps + 1, lastRepFrameCount := s3.frameCount,
                     formQuality := "Perfect! Rep counted" }, true)
        else if kneeAngle < squatStartPositionThreshold then
          ({ s3 with formQuality := "Incomplete rep - stand up fully" }, false)
        else
          (s3, false)
      else
        if s3.isInDownPosition = true then
          if kneeAngle < 80 then ({ s3 with formQuality := "Excellent depth!" }, false)
          else if kneeAngle < 100 then ({ s3 with formQuality := "Good depth - keep going" }, false)
          else ({ s3 with formQuality := "Go lower for full squat" }, false)
        else
          ({ s3 with formQuality := "Ready - Squat down" }, false)
  | _, _ => ({ s1 with formQuality := "Position legs for detection" }, false)

/-- SitupDetector.detectRep: one frame of the sit-up state machine. -/
noncomputable def situpDetectRep (s0 : DetectorState) (pose : Pose) : DetectorState × Bool :=
  let s1 : DetectorState := { s0 with frameCount := s0.frameCount + 1 }
  match getKeypoint pose 0, getKeypoint pose 11, getKeypoint pose 12 with
  | some _, some _, some _ =>
    let confidence := situpConfidence pose
    let normalizedAngle := situpNormalizedAngle pose
    let s2 : DetectorState := { s1 with lastAngle := normalizedAngle }
    if confidence < minFormQuality then
      ({ s2 with formQuality := "Low visibility - adjust position" }, false)
    else
      let wasDown := s2.isInDownPosition
      let s3 : DetectorState :=
        { s2 with isInDownPosition := decide (normalizedAngle < situpEndPositionThreshold) }
      if wasDown = true ∧ ¬ s3.isInDownPosition = true then
        if situpStartPositionThreshold < normalizedAngle ∧
            s3.frameCount - s3.lastRepFrameCount > framesBetweenReps then
          ({ s3 with lastReps := s3.lastReps + 1, lastRepFrameCount := s3.frameCount,
                     formQuality := "Perfect! Rep counted" }, true)
        else if normalizedAngle < situpStartPositionThreshold then
          ({ s3 with formQuality := "Incomplete rep - lie back fully" }, false)
        else
          (s3, false)
      else
        if s3.isInDownPosition = true then
          if normalizedAngle < 90 then ({ s3 with formQuality := "Great curl! Complete it" }, false)
          else ({ s3 with formQuality := "Keep curling up" }, false)
        else
          ({ s3 with formQuality := "Ready - Curl up" }, false)
  | _, _, _ => ({ s1 with formQuality := "Position your body fully" }, false)

/-- The three exercise types. -/
inductive Exercise where
  | pushup
  | squat
  | situp

/-- Dispatch to the detector variant of an exercise. -/
noncomputable def detect : Exercise → DetectorState → Pose → DetectorState × Bool
  | Exercise.pushup => pushupDetectRep
  | Exercise.squat => squatDetectRep
  | Exercise.situp => situpDetectRep

/-- Run a detector over a list of poses, collecting the final state and the
per-frame boolean outputs. -/
def runSteps (step : DetectorState → Pose → DetectorState × Bool) :
    DetectorState → List Pose → DetectorState × List Bool
  | s, [] => (s, [])
  | s, p :: ps =>
    let r := step s p
    let rest := runSteps step r.1 ps
    (rest.1, r.2 :: rest.2)

/-- Tracked metric of each variant. -/
noncomputable def metricOf : Exercise → Pose → ℝ
  | Exercise.pushup => pushupElbowAngle
  | Exercise.squat => squatKneeAngle
  | Exercise.situp => situpNormalizedAngle

/-- Aggregate confidence of each variant. -/
noncomputable def confidenceOf : Exercise → Pose → ℝ
  | Exercise.pushup => pushupConfidence
  | Exercise.squat => squatConfidence
  | Exercise.situp => situpConfidence

/-- End-position threshold of each variant. -/
noncomputable def endThreshold : Exercise → ℝ
  | Exercise.pushup => pushupEndPositionThreshold
  | Exercise.squat => squatEndPositionThreshold
  | Exercise.situp => situpEndPositionThreshold

/-- Start-position threshold of each variant. -/
noncomputable def startThreshold : Exercise → ℝ
  | Exercise.pushup => pushupStartPositionThreshold
  | Exercise.squat => squatStartPositionThreshold
  | Exercise.situp => situpStartPositionThreshold

/-- The essential landmarks of each variant are present (per-landmark score
gate passed): elbows for push-ups, knees for squats, nose and hips for
sit-ups. -/
def essentialPresent : Exercise → Pose → Prop
  | Exercise.pushup => fun p => getKeypoint p 7 ≠ none ∧ getKeypoint p 8 ≠ none
  | Exercise.squat => fun p => getKeypoint p 13 ≠ none ∧ getKeypoint p 14 ≠ none
  | Exercise.situp => fun p =>
      getKeypoint p 0 ≠ none ∧ getKeypoint p 11 ≠ none ∧ getKeypoint p 12 ≠ none

/-- Missing-landmark feedback of each variant. -/
def positioningMsg : Exercise → String
  | Exercise.pushup => "Position body with arms visible"
  | Exercise.squat => "Position legs for detection"
  | Exercise.situp => "Position your body fully"

/-- Low-visibility feedback of each variant. -/
def lowVisMsg : Exercise → String
  | Exercise.pushup => "Low visibility - adjust your position"
  | Exercise.squat => "Low visibility - adjust your position"
  | Exercise.situp => "Low visibility - adjust position"

/-- Incomplete-rep feedback of each variant. -/
def incompleteMsg : Exercise → String
  | Exercise.pushup => "Incomplete rep - extend fully"
  | Exercise.squat => "Incomplete rep - stand up fully"
  | Exercise.situp => "Incomplete rep - lie back fully"

/-- Keypoint constructor with full confidence, used for concrete test poses. -/
def kpt (x y : ℝ) : Keypoint := { x := x, y := y, score := 1 }

/-- A pose with no keypoints at all. -/
def emptyPose : Pose := { keypoints := [], score := 0 }

/-- Unfolding equation for `calculateAngle`. -/
theorem calculateAngle_def (a b c : Keypoint) :
    calculateAngle a b c =
      if Real.sqrt ((a.x - b.x) ^ 2 + (a.y - b.y) ^ 2) = 0 ∨
          Real.sqrt ((c.x - b.x) ^ 2 + (c.y - b.y) ^ 2) = 0 then 0
      else Real.arccos (min 1 (max (-1)
          (((a.x - b.x) * (c.x - b.x) + (a.y - b.y) * (c.y - b.y)) /
            (Real.sqrt ((a.x - b.x) ^ 2 + (a.y - b.y) ^ 2) *
              Real.sqrt ((c.x - b.x) ^ 2 + (c.y - b.y) ^ 2))))) * (180 / Real.pi) := rfl

/-- The angle is between 0 and 180 degrees. -/
theorem calculateAngle_range (a b c : Keypoint) :
    0 ≤ calculateAngle a b c ∧ calculateAngle a b c ≤ 180 := by
  rw [calculateAngle_def]
  split
  · norm_num
  · constructor
    · exact mul_nonneg (Real.arccos_nonneg _) (by positivity)
    · refine le_trans
        (mul_le_mul_of_nonneg_right (Real.arccos_le_pi _) (by positivity)) (le_of_eq ?_)
      rw [mul_comm, div_mul_cancel₀ _ Real.pi_ne_zero]

/-- The angle is 0 when a ray has zero length. -/
theorem calculateAngle_degenerate (a b c : Keypoint)
    (h : (a.x = b.x ∧ a.y = b.y) ∨ (c.x = b.x ∧ c.y = b.y)) : calculateAngle a b c = 0 := by
  have hcond : Real.sqrt ((a.x - b.x) ^ 2 + (a.y - b.y) ^ 2) = 0 ∨
      Real.sqrt ((c.x - b.x) ^ 2 + (c.y - b.y) ^ 2) = 0 := by
    rcases h with ⟨h1, h2⟩ | ⟨h1, h2⟩
    · left; rw [h1, h2]; simp
    · right; rw [h1, h2]; simp
  rw [calculateAngle_def, if_pos hcond]

/-- The angle is 180 when b lies strictly between a and c on a line. -/
theorem calculateAngle_collinear (a b c : Keypoint) (t : ℝ) (ht0 : 0 < t) (ht1 : t < 1)
    (hbx : b.x = a.x + t * (c.x - a.x)) (hby : b.y = a.y + t * (c.y - a.y))
    (hac : a.x ≠ c.x ∨ a.y ≠ c.y) : calculateAngle a b c = 180 := by
  have hd2 : 0 < (c.x - a.x) ^ 2 + (c.y - a.y) ^ 2 := by
    rcases hac with h | h
    · have h1 : (c.x - a.x) ≠ 0 := sub_ne_zero.mpr (Ne.symm h)
      nlinarith [pow_two_pos_of_ne_zero h1, sq_nonneg (c.y - a.y)]
    · have h1 : (c.y - a.y) ≠ 0 := sub_ne_zero.mpr (Ne.symm h)
      nlinarith [pow_two_pos_of_ne_zero h1, sq_nonneg (c.x - a.x)]
  have hsd : (0:ℝ) < Real.sqrt ((c.x - a.x) ^ 2 + (c.y - a.y) ^ 2) := Real.sqrt_pos.mpr hd2
  have hba : (a.x - b.x) ^ 2 + (a.y - b.y) ^ 2 =
      t ^ 2 * ((c.x - a.x) ^ 2 + (c.y - a.y) ^ 2) := by rw [hbx, hby]; ring
  have hbc : (c.x - b.x) ^ 2 + (c.y - b.y) ^ 2 =
      (1 - t) ^ 2 * ((c.x - a.x) ^ 2 + (c.y - a.y) ^ 2) := by rw [hbx, hby]; ring
  have hsba : Real.sqrt ((a.x - b.x) ^ 2 + (a.y - b.y) ^ 2) =
      t * Real.sqrt ((c.x - a.x) ^ 2 + (c.y - a.y) ^ 2) := by
    rw [hba, Real.sqrt_mul (sq_nonneg t), Real.sqrt_sq_eq_abs, abs_of_pos ht0]
  have hsbc : Real.sqrt ((c.x - b.x) ^ 2 + (c.y - b.y) ^ 2) =
      (1 - t) * Real.sqrt ((c.x - a.x) ^ 2 + (c.y - a.y) ^ 2) := by
    rw [hbc, Real.sqrt_mul (sq_nonneg (1 - t)), Real.sqrt_sq_eq_abs,
      abs_of_pos (by linarith)]
  have hdot : (a.x - b.x) * (c.x - b.x) + (a.y - b.y) * (c.y - b.y) =
      -(t * (1 - t) * ((c.x - a.x) ^ 2 + (c.y - a.y) ^ 2)) := by rw [hbx, hby]; ring
  have hnz : ¬ (Real.sqrt ((a.x - b.x) ^ 2 + (a.y - b.y) ^ 2) = 0 ∨
      Real.sqrt ((c.x - b.x) ^ 2 + (c.y - b.y) ^ 2) = 0) := by
    push_neg
    constructor
    · rw [hsba]; exact ne_of_gt (mul_pos ht0 hsd)
    · rw [hsbc]; exact ne_of_gt (mul_pos (by linarith) hsd)
  rw [calculateAngle_def, if_neg hnz, hdot, hsba, hsbc]
  have hcos : -(t * (1 - t) * ((c.x - a.x) ^ 2 + (c.y - a.y) ^ 2)) /
      (t * Real.sqrt ((c.x - a.x) ^ 2 + (c.y - a.y) ^ 2) *
        ((1 - t) * Real.sqrt ((c.x - a.x) ^ 2 + (c.y - a.y) ^ 2))) = -1 := by
    have hss : Real.sqrt ((c.x - a.x) ^ 2 + (c.y - a.y) ^ 2) *
        Real.sqrt ((c.x - a.x) ^ 2 + (c.y - a.y) ^ 2) =
        (c.x - a.x) ^ 2 + (c.y - a.y) ^ 2 := Real.mul_self_sqrt (le_of_lt hd2)
    rw [div_eq_iff (ne_of_gt (mul_pos (mul_pos ht0 hsd) (mul_pos (by linarith) hsd)))]
    nlinarith [hss]
  rw [hcos]
  norm_num [Real.arccos_neg_one]
  rw [mul_comm, div_mul_cancel₀ _ Real.pi_ne_zero]

/-- The angle is 0 when the two endpoints coincide (and differ from b). -/
theorem calculateAngle_same_endpoint (a b c : Keypoint) (hx : a.x = c.x) (hy : a.y = c.y)
    (hab : a.x ≠ b.x ∨ a.y ≠ b.y) : calculateAngle a b c = 0 := by
  have hS : 0 < (a.x - b.x) ^ 2 + (a.y - b.y) ^ 2 := by
    rcases hab with h | h
    · have h1 : (a.x - b.x) ≠ 0 := sub_ne_zero.mpr h
      nlinarith [pow_two_pos_of_ne_zero h1, sq_nonneg (a.y - b.y)]
    · have h1 : (a.y - b.y) ≠ 0 := sub_ne_zero.mpr h
      nlinarith [pow_two_pos_of_ne_zero h1, sq_nonneg (a.x - b.x)]
  have hx' : c.x - b.x = a.x - b.x := by rw [hx]
  have hy' : c.y - b.y = a.y - b.y := by rw [hy]
  have hsS : Real.sqrt ((a.x - b.x) ^ 2 + (a.y - b.y) ^ 2) ≠ 0 :=
    ne_of_gt (Real.sqrt_pos.mpr hS)
  rw [calculateAngle_def, hx', hy']
  rw [if_neg (by push_neg; exact ⟨hsS, hsS⟩)]
  have hdot : (a.x - b.x) * (a.x - b.x) + (a.y - b.y) * (a.y - b.y) =
      (a.x - b.x) ^ 2 + (a.y - b.y) ^ 2 := by ring
  rw [hdot, Real.mul_self_sqrt (le_of_lt hS), div_self (ne_of_gt hS)]
  norm_num [Real.arccos_one]

/-- C7: for all keypoints, the angle function returns a value in degrees in
[0, 180]; it returns 0 when either ray has zero length (vertex coincides
with an endpoint); it returns 180 when a, b, c are collinear with b strictly
between a and c; and it returns 0 when a = c while a differs from b. -/
theorem calculateAngle_spec :
    (∀ a b c : Keypoint, 0 ≤ calculateAngle a b c ∧ calculateAngle a b c ≤ 180) ∧
    (∀ a b c : Keypoint,
      ((a.x = b.x ∧ a.y = b.y) ∨ (c.x = b.x ∧ c.y = b.y)) → calculateAngle a b c = 0) ∧
    (∀ (a b c : Keypoint) (t : ℝ), 0 < t → t < 1 →
      b.x = a.x + t * (c.x - a.x) → b.y = a.y + t * (c.y - a.y) →
      (a.x ≠ c.x ∨ a.y ≠ c.y) → calculateAngle a b c = 180) ∧
    (∀ a b c : Keypoint, a.x = c.x → a.y = c.y →
      (a.x ≠ b.x ∨ a.y ≠ b.y) → calculateAngle a b c = 0) := by
  refine ⟨calculateAngle_range, calculateAngle_degenerate, ?_, calculateAngle_same_endpoint⟩
  intro a b c t ht0 ht1 hbx hby hac
  exact calculateAngle_collinear a b c t ht0 ht1 hbx hby hac

/-- Concrete instances of `calculateAngle_spec`: a right-angle-free sample
triple for the range, a coincident vertex, a strictly-between collinear
triple, and coincident endpoints. -/
theorem calculateAngle_spec_witness :
    (0 ≤ calculateAngle (kpt 0 0) (kpt 1 2) (kpt 3 4) ∧
      calculateAngle (kpt 0 0) (kpt 1 2) (kpt 3 4) ≤ 180) ∧
    calculateAngle (kpt 1 2) (kpt 1 2) (kpt 3 4) = 0 ∧
    calculateAngle (kpt 0 0) (kpt 1 0) (kpt 2 0) = 180 ∧
    calculateAngle (kpt 1 1) (kpt 0 0) (kpt 1 1) = 0 := by
  refine ⟨calculateAngle_spec.1 _ _ _, ?_, ?_, ?_⟩
  · exact calculateAngle_spec.2.1 _ _ _ (Or.inl ⟨rfl, rfl⟩)
  · refine calculateAngle_spec.2.2.1 _ _ _ (1 / 2) (by norm_num) (by norm_num) ?_ ?_ ?_
    · show (1:ℝ) = 0 + 1 / 2 * (2 - 0); norm_num
    · show (0:ℝ) = 0 + 1 / 2 * (0 - 0); norm_num
    · left; show (0:ℝ) ≠ 2; norm_num
  · exact calculateAngle_spec.2.2.2 _ _ _ rfl rfl (Or.inl (by show (1:ℝ) ≠ 0; norm_num))

/-- A pose whose left and right shoulder/elbow/wrist triples both form the
planar angle θ at the elbow: shoulders at (1,0), elbows at the origin,
wrists on the unit circle, every score 1. -/
noncomputable def anglePose (θ : ℝ) : Pose :=
  { keypoints := [kpt 0 0, kpt 0 0, kpt 0 0, kpt 0 0, kpt 0 0,
      kpt 1 0, kpt 1 0, kpt 0 0, kpt 0 0,
      kpt (Real.cos θ) (Real.sin θ), kpt (Real.cos θ) (Real.sin θ)], score := 1 }

/-- A pose whose elbow angle evaluates to d degrees (for 0 ≤ d ≤ 180). -/
noncomputable def degPose (d : ℝ) : Pose := anglePose (d * (Real.pi / 180))

/-- The angle at the origin between (1,0) and a unit-circle point at angle
θ is θ itself (in degrees). -/
theorem calculateAngle_unit (θ : ℝ) (h0 : 0 ≤ θ) (h1 : θ ≤ Real.pi) :
    calculateAngle (kpt 1 0) (kpt 0 0) (kpt (Real.cos θ) (Real.sin θ)) =
      θ * (180 / Real.pi) := by
  rw [calculateAngle_def]
  show (if Real.sqrt (((1:ℝ) - 0) ^ 2 + ((0:ℝ) - 0) ^ 2) = 0 ∨
      Real.sqrt ((Real.cos θ - 0) ^ 2 + (Real.sin θ - 0) ^ 2) = 0 then (0:ℝ)
    else Real.arccos (min 1 (max (-1)
        ((((1:ℝ) - 0) * (Real.cos θ - 0) + ((0:ℝ) - 0) * (Real.sin θ - 0)) /
          (Real.sqrt (((1:ℝ) - 0) ^ 2 + ((0:ℝ) - 0) ^ 2) *
            Real.sqrt ((Real.cos θ - 0) ^ 2 + (Real.sin θ - 0) ^ 2))))) *
      (180 / Real.pi)) = θ * (180 / Real.pi)
  have hba : Real.sqrt (((1:ℝ) - 0) ^ 2 + ((0:ℝ) - 0) ^ 2) = 1 := by
    norm_num
  have hbc : Real.sqrt ((Real.cos θ - 0) ^ 2 + (Real.sin θ - 0) ^ 2) = 1 := by
    have : (Real.cos θ - 0) ^ 2 + (Real.sin θ - 0) ^ 2 = 1 := by
      have := Real.cos_sq_add_sin_sq θ
      linarith [this]
    rw [this, Real.sqrt_one]
  rw [hba, hbc]
  rw [if_neg (by norm_num)]
  have hfrac : (((1:ℝ) - 0) * (Real.cos θ - 0) + ((0:ℝ) - 0) * (Real.sin θ - 0)) /
      ((1:ℝ) * 1) = Real.cos θ := by ring
  rw [hfrac]
  have hclamp : min 1 (max (-1) (Real.cos θ)) = Real.cos θ := by
    rw [max_eq_right (Real.neg_one_le_cos θ), min_eq_right (Real.cos_le_one θ)]
  rw [hclamp, Real.arccos_cos h0 h1]

/-- Folding score accumulation over keypoints that all have score 1 adds the
list length. -/
theorem foldl_score_ones (l : List Keypoint) (init : ℝ) (h : ∀ kp ∈ l, kp.score = 1) :
    l.foldl (fun sum kp => sum + kp.score) init = init + l.length := by
  induction l generalizing init with
  | nil => simp
  | cons a l ih =>
    simp only [List.foldl_cons, List.length_cons]
    rw [ih _ (fun kp hk => h kp (List.mem_cons_of_mem a hk)), h a (List.mem_cons_self a l)]
    push_cast
    ring

/-- The aggregate confidence is 1 when every present keypoint has score 1
and at least one keypoint is present. -/
theorem getMeanConfidence_ones (l : List (Option Keypoint))
    (h1 : ∀ kp : Keypoint, some kp ∈ l → kp.score = 1)
    (h2 : ∃ kp : Keypoint, some kp ∈ l) :
    getMeanConfidence l = 1 := by
  have hmem : ∀ kp ∈ l.filterMap id, kp.score = 1 := by
    intro kp hk
    rw [List.mem_filterMap] at hk
    obtain ⟨a, ha, hae⟩ := hk
    exact h1 kp (by rwa [← hae])
  have hne : (l.filterMap id).length ≠ 0 := by
    obtain ⟨kp, hk⟩ := h2
    have hmem' : kp ∈ l.filterMap id := List.mem_filterMap.mpr ⟨some kp, hk, rfl⟩
    intro hnil
    rw [List.length_eq_zero] at hnil
    rw [hnil] at hmem'
    exact absurd hmem' (List.not_mem_nil kp)
  unfold getMeanConfidence
  simp only [if_neg hne]
  rw [foldl_score_ones _ 0 hmem, zero_add, div_self (Nat.cast_ne_zero.mpr hne)]

/-- Landmark 5 of an `anglePose`. -/
theorem anglePose_gk5 (θ : ℝ) : getKeypoint (anglePose θ) 5 = some (kpt 1 0) := by
  norm_num [getKeypoint, anglePose, kpt]

/-- Landmark 6 of an `anglePose`. -/
theorem anglePose_gk6 (θ : ℝ) : getKeypoint (anglePose θ) 6 = some (kpt 1 0) := by
  norm_num [getKeypoint, anglePose, kpt]

/-- Landmark 7 of an `anglePose`. -/
theorem anglePose_gk7 (θ : ℝ) : getKeypoint (anglePose θ) 7 = some (kpt 0 0) := by
  norm_num [getKeypoint, anglePose, kpt]

/-- Landmark 8 of an `anglePose`. -/
theorem anglePose_gk8 (θ : ℝ) : getKeypoint (anglePose θ) 8 = some (kpt 0 0) := by
  norm_num [getKeypoint, anglePose, kpt]

/-- Landmark 9 of an `anglePose`. -/
theorem anglePose_gk9 (θ : ℝ) :
    getKeypoint (anglePose θ) 9 = some (kpt (Real.cos θ) (Real.sin θ)) := by
  norm_num [getKeypoint, anglePose, kpt]

/-- Landmark 10 of an `anglePose`. -/
theorem anglePose_gk10 (θ : ℝ) :
    getKeypoint (anglePose θ) 10 = some (kpt (Real.cos θ) (Real.sin θ)) := by
  norm_num [getKeypoint, anglePose, kpt]

/-- The elbow metric of an `anglePose` is θ in degrees. -/
theorem pushupElbowAngle_anglePose (θ : ℝ) (h0 : 0 ≤ θ) (h1 : θ ≤ Real.pi) :
    pushupElbowAngle (anglePose θ) = θ * (180 / Real.pi) := by
  have hle : θ * (180 / Real.pi) ≤ 180 := by
    refine le_trans (mul_le_mul_of_nonneg_right h1 (by positivity)) (le_of_eq ?_)
    rw [mul_comm, div_mul_cancel₀ _ Real.pi_ne_zero]
  unfold pushupElbowAngle
  simp only [anglePose_gk5, anglePose_gk6, anglePose_gk7, anglePose_gk8,
    anglePose_gk9, anglePose_gk10]
  rw [calculateAngle_unit θ h0 h1, min_eq_right hle, min_self]

/-- The aggregate confidence of an `anglePose` is 1. -/
theorem pushupConfidence_anglePose (θ : ℝ) : pushupConfidence (anglePose θ) = 1 := by
  unfold pushupConfidence
  simp only [anglePose_gk5, anglePose_gk6, anglePose_gk7, anglePose_gk8,
    anglePose_gk9, anglePose_gk10]
  refine getMeanConfidence_ones _ ?_ ⟨kpt 1 0, by simp⟩
  intro kp hk
  simp only [List.mem_cons, List.not_mem_nil, or_false, Option.some.injEq] at hk
  rcases hk with h | h | h | h | h | h <;> rw [h] <;> rfl

/-- The elbow metric of `degPose d` is exactly d for 0 ≤ d ≤ 180. -/
theorem pushupElbowAngle_degPose (d : ℝ) (h0 : 0 ≤ d) (h1 : d ≤ 180) :
    pushupElbowAngle (degPose d) = d := by
  have hθ0 : 0 ≤ d * (Real.pi / 180) := mul_nonneg h0 (by positivity)
  have hθ1 : d * (Real.pi / 180) ≤ Real.pi := by
    refine le_trans (mul_le_mul_of_nonneg_right h1 (by positivity)) (le_of_eq ?_)
    rw [mul_comm, div_mul_cancel₀ _ (by norm_num : (180:ℝ) ≠ 0)]
  unfold degPose
  rw [pushupElbowAngle_anglePose _ hθ0 hθ1]
  field_simp

/-- The aggregate confidence of `degPose d` is 1. -/
theorem pushupConfidence_degPose (d : ℝ) : pushupConfidence (degPose d) = 1 :=
  pushupConfidence_anglePose _

/-- The essential landmarks of `degPose d` are present. -/
theorem degPose_essential (d : ℝ) :
    getKeypoint (degPose d) 7 ≠ none ∧ getKeypoint (degPose d) 8 ≠ none := by
  unfold degPose
  rw [anglePose_gk7, anglePose_gk8]
  simp

/-- Every keypoint of `degPose d` has score 1. -/
theorem degPose_scores (d : ℝ) : ∀ kp ∈ (degPose d).keypoints, kp.score = 1 := by
  intro kp hk
  simp only [degPose, anglePose, List.mem_cons, List.not_mem_nil, or_false] at hk
  rcases hk with h | h | h | h | h | h | h | h | h | h | h <;> rw [h] <;> rfl

/-- Push-up down-phase feedback bands. -/
noncomputable def pushupBand (θ : ℝ) : String :=
  if θ < 15 then "Perfect form! Keep going"
  else if θ < 50 then "Good form - go lower"
  else "Go lower for full rep"

/-- Squat down-phase feedback bands. -/
noncomputable def squatBand (θ : ℝ) : String :=
  if θ < 80 then "Excellent depth!"
  else if θ < 100 then "Good depth - keep going"
  else "Go lower for full squat"

/-- Sit-up down-phase feedback bands. -/
noncomputable def situpBand (θ : ℝ) : String :=
  if θ < 90 then "Great curl! Complete it" else "Keep curling up"

/-- Ready feedback of each variant. -/
def readyMsg : Exercise → String
  | Exercise.pushup => "Ready - Lower your body"
  | Exercise.squat => "Ready - Squat down"
  | Exercise.situp => "Ready - Curl up"

/-- Down-phase feedback bands of each variant. -/
noncomputable def bandOf : Exercise → ℝ → String
  | Exercise.pushup => pushupBand
  | Exercise.squat => squatBand
  | Exercise.situp => situpBand

/-- The shared transition evaluation of all three detectors, as a function
of the frame's metric θ, once the landmark and confidence gates have been
passed. -/
noncomputable def transStep (endT startT : ℝ) (incomplete ready : String) (band : ℝ → String)
    (s0 : DetectorState) (θ : ℝ) : DetectorState × Bool :=
  let s1 : DetectorState := { s0 with frameCount := s0.frameCount + 1 }
  let s2 : DetectorState := { s1 with lastAngle := θ }
  let wasDown := s2.isInDownPosition
  let s3 : DetectorState := { s2 with isInDownPosition := decide (θ < endT) }
  if wasDown = true ∧ ¬ s3.isInDownPosition = true then
    if startT < θ ∧ s3.frameCount - s3.lastRepFrameCount > framesBetweenReps then
      ({ s3 with lastReps := s3.lastReps + 1, lastRepFrameCount := s3.frameCount,
                 formQuality := "Perfect! Rep counted" }, true)
    else if θ < startT then ({ s3 with formQuality := incomplete }, false)
    else (s3, false)
  else
    if s3.isInDownPosition = true then ({ s3 with formQuality := band θ }, false)
    else ({ s3 with formQuality := ready }, false)

/-- When the elbows are present and the confidence gate passes, the push-up
step is the shared transition evaluation at the elbow metric. -/
theorem pushupDetectRep_char (s : DetectorState) (p : Pose)
    (h7 : getKeypoint p 7 ≠ none) (h8 : getKeypoint p 8 ≠ none)
    (hc : ¬ pushupConfidence p < minFormQuality) :
    pushupDetectRep s p =
      transStep pushupEndPositionThreshold pushupStartPositionThreshold
        "Incomplete rep - extend fully" "Ready - Lower your body" pushupBand
        s (pushupElbowAngle p) := by
  obtain ⟨le, hle⟩ := Option.ne_none_iff_exists'.mp h7
  obtain ⟨re, hre⟩ := Option.ne_none_iff_exists'.mp h8
  unfold pushupDetectRep transStep
  simp only [hle, hre]
  rw [if_neg hc]
  split_ifs <;> simp [pushupBand, *]

/-- When the knees are present and the confidence gate passes, the squat
step is the shared transition evaluation at the knee metric. -/
theorem squatDetectRep_char (s : DetectorState) (p : Pose)
    (h13 : getKeypoint p 13 ≠ none) (h14 : getKeypoint p 14 ≠ none)
    (hc : ¬ squatConfidence p < minFormQuality) :
    squatDetectRep s p =
      transStep squatEndPositionThreshold squatStartPositionThreshold
        "Incomplete rep - stand up fully" "Ready - Squat down" squatBand
        s (squatKneeAngle p) := by
  obtain ⟨lk, hlk⟩ := Option.ne_none_iff_exists'.mp h13
  obtain ⟨rk, hrk⟩ := Option.ne_none_iff_exists'.mp h14
  unfold squatDetectRep transStep
  simp only [hlk, hrk]
  rw [if_neg hc]
  split_ifs <;> simp [squatBand, *]

/-- When nose and hips are present and the confidence gate passes, the
sit-up step is the shared transition evaluation at the torso metric. -/
theorem situpDetectRep_char (s : DetectorState) (p : Pose)
    (h0 : getKeypoint p 0 ≠ none) (h11 : getKeypoint p 11 ≠ none)
    (h12 : getKeypoint p 12 ≠ none)
    (hc : ¬ situpConfidence p < minFormQuality) :
    situpDetectRep s p =
      transStep situpEndPositionThreshold situpStartPositionThreshold
        "Incomplete rep - lie back fully" "Ready - Curl up" situpBand
        s (situpNormalizedAngle p) := by
  obtain ⟨n, hn⟩ := Option.ne_none_iff_exists'.mp h0
  obtain ⟨lh, hlh⟩ := Option.ne_none_iff_exists'.mp h11
  obtain ⟨rh, hrh⟩ := Option.ne_none_iff_exists'.mp h12
  unfold situpDetectRep transStep
  simp only [hn, hlh, hrh]
  rw [if_neg hc]
  split_ifs <;> simp [situpBand, *]

/-- Missing-elbow early return of the push-up step. -/
theorem pushupDetectRep_missing (s : DetectorState) (p : Pose)
    (h : getKeypoint p 7 = none ∨ getKeypoint p 8 = none) :
    pushupDetectRep s p =
      ({ s with frameCount := s.frameCount + 1,
                formQuality := "Position body with arms visible" }, false) := by
  unfold pushupDetectRep
  rcases h with h | h
  · rcases h8 : getKeypoint p 8 with _ | re <;> simp [h, h8]
  · rcases h7 : getKeypoint p 7 with _ | le <;> simp [h, h7]

/-- Missing-knee early return of the squat step. -/
theorem squatDetectRep_missing (s : DetectorState) (p : Pose)
    (h : getKeypoint p 13 = none ∨ getKeypoint p 14 = none) :
    squatDetectRep s p =
      ({ s with frameCount := s.frameCount + 1,
                formQuality := "Position legs for detection" }, false) := by
  unfold squatDetectRep
  rcases h with h | h
  · rcases h14 : getKeypoint p 14 with _ | rk <;> simp [h, h14]
  · rcases h13 : getKeypoint p 13 with _ | lk <;> simp [h, h13]

/-- Missing-landmark early return of the sit-up step. -/
theorem situpDetectRep_missing (s : DetectorState) (p : Pose)
    (h : getKeypoint p 0 = none ∨ getKeypoint p 11 = none ∨ getKeypoint p 12 = none) :
    situpDetectRep s p =
      ({ s with frameCount := s.frameCount + 1,
                formQuality := "Position your body fully" }, false) := by
  unfold situpDetectRep
  rcases h0 : getKeypoint p 0 with _ | n <;>
    rcases h11 : getKeypoint p 11 with _ | lh <;>
      rcases h12 : getKeypoint p 12 with _ | rh <;>
        simp_all

/-- Low-confidence early return of the push-up step. -/
theorem pushupDetectRep_lowconf (s : DetectorState) (p : Pose)
    (h7 : getKeypoint p 7 ≠ none) (h8 : getKeypoint p 8 ≠ none)
    (hc : pushupConfidence p < minFormQuality) :
    pushupDetectRep s p =
      ({ s with frameCount := s.frameCount + 1, lastAngle := pushupElbowAngle p,
                formQuality := "Low visibility - adjust your position" }, false) := by
  obtain ⟨le, hle⟩ := Option.ne_none_iff_exists'.mp h7
  obtain ⟨re, hre⟩ := Option.ne_none_iff_exists'.mp h8
  unfold pushupDetectRep
  simp only [hle, hre]
  rw [if_pos hc]

/-- Low-confidence early return of the squat step. -/
theorem squatDetectRep_lowconf (s : DetectorState) (p : Pose)
    (h13 : getKeypoint p 13 ≠ none) (h14 : getKeypoint p 14 ≠ none)
    (hc : squatConfidence p < minFormQuality) :
    squatDetectRep s p =
      ({ s with frameCount := s.frameCount + 1, lastAngle := squatKneeAngle p,
                formQuality := "Low visibility - adjust your position" }, false) := by
  obtain ⟨lk, hlk⟩ := Option.ne_none_iff_exists'.mp h13
  obtain ⟨rk, hrk⟩ := Option.ne_none_iff_exists'.mp h14
  unfold squatDetectRep
  simp only [hlk, hrk]
  rw [if_pos hc]

/-- Low-confidence early return of the sit-up step. -/
theorem situpDetectRep_lowconf (s : DetectorState) (p : Pose)
    (h0 : getKeypoint p 0 ≠ none) (h11 : getKeypoint p 11 ≠ none)
    (h12 : getKeypoint p 12 ≠ none)
    (hc : situpConfidence p < minFormQuality) :
    situpDetectRep s p =
      ({ s with frameCount := s.frameCount + 1, lastAngle := situpNormalizedAngle p,
                formQuality := "Low visibility - adjust position" }, false) := by
  obtain ⟨n, hn⟩ := Option.ne_none_iff_exists'.mp h0
  obtain ⟨lh, hlh⟩ := Option.ne_none_iff_exists'.mp h11
  obtain ⟨rh, hrh⟩ := Option.ne_none_iff_exists'.mp h12
  unfold situpDetectRep
  simp only [hn, hlh, hrh]
  rw [if_pos hc]

/-- Characterization of any variant once both gates pass. -/
theorem detect_char (e : Exercise) (s : DetectorState) (p : Pose)
    (he : essentialPresent e p) (hc : ¬ confidenceOf e p < minFormQuality) :
    detect e s p =
      transStep (endThreshold e) (startThreshold e) (incompleteMsg e) (readyMsg e)
        (bandOf e) s (metricOf e p) := by
  cases e
  · exact pushupDetectRep_char s p he.1 he.2 hc
  · exact squatDetectRep_char s p he.1 he.2 hc
  · exact situpDetectRep_char s p he.1 he.2.1 he.2.2 hc

/-- Early return of any variant when an essential landmark is missing. -/
theorem detect_missing (e : Exercise) (s : DetectorState) (p : Pose)
    (h : ¬ essentialPresent e p) :
    detect e s p =
      ({ s with frameCount := s.frameCount + 1, formQuality := positioningMsg e }, false) := by
  cases e
  · refine pushupDetectRep_missing s p ?_
    by_contra hcon
    push_neg at hcon
    exact h ⟨hcon.1, hcon.2⟩
  · refine squatDetectRep_missing s p ?_
    by_contra hcon
    push_neg at hcon
    exact h ⟨hcon.1, hcon.2⟩
  · refine situpDetectRep_missing s p ?_
    by_contra hcon
    push_neg at hcon
    exact h ⟨hcon.1, hcon.2.1, hcon.2.2⟩

/-- Early return of any variant when the confidence gate fails. -/
theorem detect_lowconf (e : Exercise) (s : DetectorState) (p : Pose)
    (he : essentialPresent e p) (hc : confidenceOf e p < minFormQuality) :
    detect e s p =
      ({ s with frameCount := s.frameCount + 1, lastAngle := metricOf e p,
                formQuality := lowVisMsg e }, false) := by
  cases e
  · exact pushupDetectRep_lowconf s p he.1 he.2 hc
  · exact squatDetectRep_lowconf s p he.1 he.2 hc
  · exact situpDetectRep_lowconf s p he.1 he.2.1 he.2.2 hc

/-- Master case split: every call either returns false and leaves the rep
count and last-rep frame unchanged, or returns true, increments the rep
count by exactly 1, records the frame, and certifies the debounce gap and
the prior down phase. -/
theorem detect_cases (e : Exercise) (s : DetectorState) (p : Pose) :
    ((detect e s p).2 = false ∧ (detect e s p).1.lastReps = s.lastReps ∧
      (detect e s p).1.lastRepFrameCount = s.lastRepFrameCount) ∨
    ((detect e s p).2 = true ∧ (detect e s p).1.lastReps = s.lastReps + 1 ∧
      (detect e s p).1.lastRepFrameCount = s.frameCount + 1 ∧
      s.frameCount + 1 - s.lastRepFrameCount > framesBetweenReps ∧
      s.isInDownPosition = true) := by
  rcases Classical.em (essentialPresent e p) with he | he
  · rcases Classical.em (confidenceOf e p < minFormQuality) with hc | hc
    · rw [detect_lowconf e s p he hc]
      exact Or.inl ⟨rfl, rfl, rfl⟩
    · rw [detect_char e s p he hc]
      simp only [transStep]
      split_ifs with h1 h2
      · exact Or.inr ⟨rfl, rfl, rfl, h2.2, h1.1⟩
      all_goals exact Or.inl ⟨rfl, rfl, rfl⟩
  · rw [detect_missing e s p he]
    exact Or.inl ⟨rfl, rfl, rfl⟩

/-- The frame counter always advances by exactly one per call. -/
theorem detect_frameCount (e : Exercise) (s : DetectorState) (p : Pose) :
    (detect e s p).1.frameCount = s.frameCount + 1 := by
  rcases Classical.em (essentialPresent e p) with he | he
  · rcases Classical.em (confidenceOf e p < minFormQuality) with hc | hc
    · rw [detect_lowconf e s p he hc]
    · rw [detect_char e s p he hc]
      simp only [transStep]
      split_ifs <;> rfl
  · rw [detect_missing e s p he]

/-- Unfolding equation: running zero frames. -/
theorem runSteps_nil (step : DetectorState → Pose → DetectorState × Bool)
    (s : DetectorState) : runSteps step s [] = (s, []) := rfl

/-- Unfolding equation: running one more frame. -/
theorem runSteps_cons (step : DetectorState → Pose → DetectorState × Bool)
    (s : DetectorState) (p : Pose) (ps : List Pose) :
    runSteps step s (p :: ps) =
      ((runSteps step (step s p).1 ps).1, (step s p).2 :: (runSteps step (step s p).1 ps).2) :=
  rfl

/-- Running a concatenation runs the two halves in sequence. -/
theorem runSteps_append (step : DetectorState → Pose → DetectorState × Bool)
    (s : DetectorState) (l1 l2 : List Pose) :
    runSteps step s (l1 ++ l2) =
      ((runSteps step (runSteps step s l1).1 l2).1,
        (runSteps step s l1).2 ++ (runSteps step (runSteps step s l1).1 l2).2) := by
  induction l1 generalizing s with
  | nil => simp [runSteps_nil]
  | cons p ps ih => simp [runSteps_cons, ih]

/-- C2: for every detector variant, a single `detectRep` call never
decreases `getReps()` and increases it by at most 1 (by exactly 1 when it
increases, since the counts are naturals); consequently `getReps()` is
non-decreasing across any sequence of `detectRep` calls from any state. -/
theorem reps_monotone :
    (∀ (e : Exercise) (s : DetectorState) (p : Pose),
      getReps s ≤ getReps (detect e s p).1 ∧
        getReps (detect e s p).1 ≤ getReps s + 1) ∧
    (∀ (e : Exercise) (s : DetectorState) (l : List Pose),
      getReps s ≤ getReps (runSteps (detect e) s l).1) := by
  have hstep : ∀ (e : Exercise) (s : DetectorState) (p : Pose),
      getReps s ≤ getReps (detect e s p).1 ∧ getReps (detect e s p).1 ≤ getReps s + 1 := by
    intro e s p
    rcases detect_cases e s p with ⟨_, h, _⟩ | ⟨_, h, _⟩ <;>
      unfold getReps <;> rw [h] <;> omega
  refine ⟨hstep, ?_⟩
  intro e s l
  induction l generalizing s with
  | nil => exact le_refl _
  | cons p ps ih =>
    rw [runSteps_cons]
    exact le_trans (hstep e s p).1 (ih (detect e s p).1)

/-- Every landmark lookup on the empty pose is absent. -/
theorem getKeypoint_emptyPose (i : ℕ) : getKeypoint emptyPose i = none := by
  simp [getKeypoint, emptyPose]

/-- The elbow metric defaults to 180 on the empty pose. -/
theorem pushupElbowAngle_emptyPose : pushupElbowAngle emptyPose = 180 := by
  unfold pushupElbowAngle
  simp only [getKeypoint_emptyPose]

/-- The phase flag produced by the transition evaluation is the comparison
of the metric with the end threshold, whatever the branch. -/
theorem transStep_phase (endT startT : ℝ) (incomplete ready : String) (band : ℝ → String)
    (s : DetectorState) (θ : ℝ) :
    (transStep endT startT incomplete ready band s θ).1.isInDownPosition = decide (θ < endT) := by
  simp only [transStep]
  split_ifs <;> rfl

/-- C3 (amended): for every detector variant, a call returns true exactly
when the gates pass, the previous phase was down, the new metric is not
below the end threshold, the metric clears the start threshold, and
strictly more than framesBetweenReps (10) frames have elapsed since the
last counted rep (so a transition exactly 10 frames after the previous rep
is rejected, one 11 frames after is counted). -/
theorem rep_counted_iff (e : Exercise) (s : DetectorState) (p : Pose) :
    (detect e s p).2 = true ↔
      (essentialPresent e p ∧ ¬ confidenceOf e p < minFormQuality ∧
        s.isInDownPosition = true ∧ ¬ metricOf e p < endThreshold e ∧
        startThreshold e < metricOf e p ∧
        s.frameCount + 1 - s.lastRepFrameCount > framesBetweenReps) := by
  rcases Classical.em (essentialPresent e p) with he | he
  · rcases Classical.em (confidenceOf e p < minFormQuality) with hc | hc
    · rw [detect_lowconf e s p he hc]
      simp [hc]
    · rw [detect_char e s p he hc]
      simp only [transStep, decide_eq_true_eq]
      split_ifs with h1 h2
      · simp [he, hc, h1.1, h1.2, h2.1, h2.2]
      · rw [not_and_or] at h2
        constructor
        · intro hx
          exact absurd hx (by simp)
        · rintro ⟨-, -, -, -, h5, h6⟩
          rcases h2 with h2 | h2 <;> exact absurd (by assumption) h2
      · rw [not_and_or] at h2
        constructor
        · intro hx
          exact absurd hx (by simp)
        · rintro ⟨-, -, -, -, h5, h6⟩
          rcases h2 with h2 | h2 <;> exact absurd (by assumption) h2
      · rw [not_and_or] at h1
        constructor
        · intro hx
          exact absurd hx (by simp)
        · rintro ⟨-, -, h3, h4, -, -⟩
          rcases h1 with h1 | h1
          · exact absurd h3 h1
          · exact absurd h4 (by simpa using h1)
      · rw [not_and_or] at h1
        constructor
        · intro hx
          exact absurd hx (by simp)
        · rintro ⟨-, -, h3, h4, -, -⟩
          rcases h1 with h1 | h1
          · exact absurd h3 h1
          · exact absurd h4 (by simpa using h1)
  · rw [detect_missing e s p he]
    simp [he]

/-- A mid-session state: one rep already counted at frame 10, currently in
the down phase at frame 19 (so the next call is frame 20, exactly 10 frames
after the counted rep). -/
def gapTenState : DetectorState :=
  { lastReps := 1, isInDownPosition := true, lastAngle := 20,
    formQuality := "Good form - go lower", frameCount := 19, lastRepFrameCount := 10 }

/-- As `gapTenState` but one frame later, so the next call is frame 21,
11 frames after the counted rep. -/
def gapElevenState : DetectorState :=
  { lastReps := 1, isInDownPosition := true, lastAngle := 20,
    formQuality := "Good form - go lower", frameCount := 20, lastRepFrameCount := 10 }

/-- A down→up transition with a fully extended arm occurring exactly 10
frames after the previously counted rep is NOT counted: all the other
conditions of the claim hold, yet the call returns false and the rep count
stays unchanged. -/
theorem rep_at_gap_ten_not_counted :
    gapTenState.isInDownPosition = true ∧
    ¬ pushupElbowAngle (degPose 170) < pushupEndPositionThreshold ∧
    pushupStartPositionThreshold < pushupElbowAngle (degPose 170) ∧
    ¬ pushupConfidence (degPose 170) < minFormQuality ∧
    (gapTenState.frameCount + 1) - gapTenState.lastRepFrameCount = framesBetweenReps ∧
    (pushupDetectRep gapTenState (degPose 170)).2 = false ∧
    getReps (pushupDetectRep gapTenState (degPose 170)).1 = getReps gapTenState := by
  have hang : pushupElbowAngle (degPose 170) = 170 :=
    pushupElbowAngle_degPose 170 (by norm_num) (by norm_num)
  have hc : ¬ pushupConfidence (degPose 170) < minFormQuality := by
    rw [pushupConfidence_degPose]
    norm_num [minFormQuality]
  have hchar := pushupDetectRep_char gapTenState (degPose 170)
    (degPose_essential 170).1 (degPose_essential 170).2 hc
  refine ⟨rfl, ?_, ?_, hc, rfl, ?_, ?_⟩
  · rw [hang]; norm_num [pushupEndPositionThreshold]
  · rw [hang]; norm_num [pushupStartPositionThreshold]
  · rw [hchar, hang]
    simp only [transStep, gapTenState]
    norm_num [pushupEndPositionThreshold, pushupStartPositionThreshold, framesBetweenReps]
  · rw [hchar, hang]
    simp only [transStep, gapTenState, getReps]
    norm_num [pushupEndPositionThreshold, pushupStartPositionThreshold, framesBetweenReps]

/-- Instance of the rep characterization: a down→up transition with full
extension occurring 11 frames after the previous counted rep IS counted. -/
theorem rep_counted_iff_witness :
    (detect Exercise.pushup gapElevenState (degPose 170)).2 = true := by
  have hang : pushupElbowAngle (degPose 170) = 170 :=
    pushupElbowAngle_degPose 170 (by norm_num) (by norm_num)
  refine (rep_counted_iff Exercise.pushup gapElevenState (degPose 170)).mpr
    ⟨degPose_essential 170, ?_, rfl, ?_, ?_, ?_⟩
  · show ¬ pushupConfidence (degPose 170) < minFormQuality
    rw [pushupConfidence_degPose]
    norm_num [minFormQuality]
  · show ¬ pushupElbowAngle (degPose 170) < pushupEndPositionThreshold
    rw [hang]
    norm_num [pushupEndPositionThreshold]
  · show pushupStartPositionThreshold < pushupElbowAngle (degPose 170)
    rw [hang]
    norm_num [pushupStartPositionThreshold]
  · show gapElevenState.frameCount + 1 - gapElevenState.lastRepFrameCount > framesBetweenReps
    norm_num [gapElevenState, framesBetweenReps]

/-- C4: for every variant, when an essential landmark is missing or the
aggregate confidence is below 0.5, the call returns false, the phase flag
is not advanced, and a diagnostic feedback string is set. -/
theorem gated_no_rep (e : Exercise) (s : DetectorState) (p : Pose)
    (h : ¬ essentialPresent e p ∨ confidenceOf e p < minFormQuality) :
    (detect e s p).2 = false ∧
    (detect e s p).1.isInDownPosition = s.isInDownPosition ∧
    ((detect e s p).1.formQuality = positioningMsg e ∨
      (detect e s p).1.formQuality = lowVisMsg e) := by
  rcases h with h | h
  · rw [detect_missing e s p h]
    exact ⟨rfl, rfl, Or.inl rfl⟩
  · rcases Classical.em (essentialPresent e p) with he | he
    · rw [detect_lowconf e s p he h]
      exact ⟨rfl, rfl, Or.inr rfl⟩
    · rw [detect_missing e s p he]
      exact ⟨rfl, rfl, Or.inl rfl⟩

/-- Instance of the gate theorem: feeding the empty pose to a fresh push-up
detector yields no rep, an unchanged phase flag, and positioning feedback. -/
theorem gated_no_rep_witness :
    ¬ essentialPresent Exercise.pushup emptyPose ∧
    (detect Exercise.pushup initState emptyPose).2 = false ∧
    (detect Exercise.pushup initState emptyPose).1.isInDownPosition =
      initState.isInDownPosition ∧
    ((detect Exercise.pushup initState emptyPose).1.formQuality =
        positioningMsg Exercise.pushup ∨
      (detect Exercise.pushup initState emptyPose).1.formQuality =
        lowVisMsg Exercise.pushup) := by
  have hmiss : ¬ essentialPresent Exercise.pushup emptyPose := by
    intro hcon
    exact hcon.1 (getKeypoint_emptyPose 7)
  exact ⟨hmiss, gated_no_rep Exercise.pushup initState emptyPose (Or.inl hmiss)⟩

/-- C8 (amended): for every variant, on a frame that passes both gates the
phase flag after the call equals the comparison of the current frame's
metric with the end threshold, independent of the prior state; on a gated
frame the phase flag is left unchanged. -/
theorem phase_pure_when_gates_pass (e : Exercise) (s : DetectorState) (p : Pose) :
    (essentialPresent e p → ¬ confidenceOf e p < minFormQuality →
      (detect e s p).1.isInDownPosition = decide (metricOf e p < endThreshold e)) ∧
    ((¬ essentialPresent e p ∨ confidenceOf e p < minFormQuality) →
      (detect e s p).1.isInDownPosition = s.isInDownPosition) := by
  constructor
  · intro he hc
    rw [detect_char e s p he hc, transStep_phase]
  · intro h
    rcases h with h | h
    · rw [detect_missing e s p h]
    · rcases Classical.em (essentialPresent e p) with he | he
      · rw [detect_lowconf e s p he h]
      · rw [detect_missing e s p he]

/-- Instances of the phase characterization: a down pose sets the phase
from the current frame, and a gated frame leaves it unchanged. -/
theorem phase_pure_witness :
    (detect Exercise.pushup initState (degPose 20)).1.isInDownPosition =
      decide (metricOf Exercise.pushup (degPose 20) < endThreshold Exercise.pushup) ∧
    (detect Exercise.pushup initState emptyPose).1.isInDownPosition =
      initState.isInDownPosition := by
  constructor
  · refine (phase_pure_when_gates_pass Exercise.pushup initState (degPose 20)).1
      (degPose_essential 20) ?_
    show ¬ pushupConfidence (degPose 20) < minFormQuality
    rw [pushupConfidence_degPose]
    norm_num [minFormQuality]
  · refine (phase_pure_when_gates_pass Exercise.pushup initState emptyPose).2 (Or.inl ?_)
    intro hcon
    exact hcon.1 (getKeypoint_emptyPose 7)

/-- The claimed unconditional purity of the phase flag fails: after going
down (elbow angle 20), a frame with no visible keypoints leaves the phase
flag stuck at true even though the frame's default metric 180 is not below
the end threshold 25. -/
theorem phase_stuck_on_gated_frame :
    (pushupDetectRep initState (degPose 20)).1.isInDownPosition = true ∧
    (pushupDetectRep (pushupDetectRep initState (degPose 20)).1
        emptyPose).1.isInDownPosition = true ∧
    pushupElbowAngle emptyPose = 180 ∧
    ¬ pushupElbowAngle emptyPose < pushupEndPositionThreshold ∧
    decide (pushupElbowAngle emptyPose < pushupEndPositionThreshold) = false := by
  have hang : pushupElbowAngle (degPose 20) = 20 :=
    pushupElbowAngle_degPose 20 (by norm_num) (by norm_num)
  have hc : ¬ pushupConfidence (degPose 20) < minFormQuality := by
    rw [pushupConfidence_degPose]
    norm_num [minFormQuality]
  have h1 : (pushupDetectRep initState (degPose 20)).1.isInDownPosition = true := by
    rw [pushupDetectRep_char initState (degPose 20)
      (degPose_essential 20).1 (degPose_essential 20).2 hc, transStep_phase, hang]
    rw [decide_eq_true_eq]
    norm_num [pushupEndPositionThreshold]
  have h2 := pushupDetectRep_missing (pushupDetectRep initState (degPose 20)).1 emptyPose
    (Or.inl (getKeypoint_emptyPose 7))
  have h180 : ¬ pushupElbowAngle emptyPose < pushupEndPositionThreshold := by
    rw [pushupElbowAngle_emptyPose]
    norm_num [pushupEndPositionThreshold]
  refine ⟨h1, ?_, pushupElbowAngle_emptyPose, h180, ?_⟩
  · rw [h2]
    exact h1
  · simp [h180]

/-- C10: detectRep is total on every pose value: an out-of-range landmark
index yields an absent keypoint, so a pose whose keypoint list is too short
to contain the essential landmarks produces a false return with the
positioning feedback instead of failing, for every variant. -/
theorem short_pose_safe :
    (∀ (p : Pose) (i : ℕ), p.keypoints.length ≤ i → getKeypoint p i = none) ∧
    (∀ (s : DetectorState) (p : Pose), p.keypoints.length ≤ 7 →
      pushupDetectRep s p =
        ({ s with frameCount := s.frameCount + 1,
                  formQuality := "Position body with arms visible" }, false)) ∧
    (∀ (s : DetectorState) (p : Pose), p.keypoints.length ≤ 13 →
      squatDetectRep s p =
        ({ s with frameCount := s.frameCount + 1,
                  formQuality := "Position legs for detection" }, false)) ∧
    (∀ (s : DetectorState) (p : Pose), p.keypoints.length ≤ 11 →
      situpDetectRep s p =
        ({ s with frameCount := s.frameCount + 1,
                  formQuality := "Position your body fully" }, false)) := by
  have hnone : ∀ (p : Pose) (i : ℕ), p.keypoints.length ≤ i → getKeypoint p i = none := by
    intro p i h
    unfold getKeypoint
    rw [List.getElem?_eq_none h]
  refine ⟨hnone, ?_, ?_, ?_⟩
  · intro s p h
    exact pushupDetectRep_missing s p (Or.inl (hnone p 7 h))
  · intro s p h
    exact squatDetectRep_missing s p (Or.inl (hnone p 13 h))
  · intro s p h
    exact situpDetectRep_missing s p (Or.inr (Or.inl (hnone p 11 h)))

/-- Instances of totality on the empty pose for the three variants. -/
theorem short_pose_safe_witness :
    getKeypoint emptyPose 16 = none ∧
    pushupDetectRep initState emptyPose =
      ({ initState with frameCount := 1,
                        formQuality := "Position body with arms visible" }, false) ∧
    squatDetectRep initState emptyPose =
      ({ initState with frameCount := 1,
                        formQuality := "Position legs for detection" }, false) ∧
    situpDetectRep initState emptyPose =
      ({ initState with frameCount := 1,
                        formQuality := "Position your body fully" }, false) := by
  refine ⟨short_pose_safe.1 emptyPose 16 (by norm_num [emptyPose]),
    short_pose_safe.2.1 initState emptyPose (by norm_num [emptyPose]),
    short_pose_safe.2.2.1 initState emptyPose (by norm_num [emptyPose]),
    short_pose_safe.2.2.2 initState emptyPose (by norm_num [emptyPose])⟩

/-- C6 (amended): reset restores a state that agrees with a freshly
constructed detector on every field except the feedback string, which keeps
its pre-reset value: in particular getReps() is 0 and the phase flag and
frame counters are cleared. -/
theorem reset_clears_counters (s : DetectorState) :
    resetState s = { initState with formQuality := s.formQuality } := rfl

/-- A detector that has just reported missing arms and is then reset still
reports that message through getFormFeedback, unlike a fresh instance whose
feedback is "Good": reset is not observably equivalent to fresh
construction. -/
theorem reset_keeps_feedback :
    getFormFeedback (resetState (pushupDetectRep initState emptyPose).1) =
      "Position body with arms visible" ∧
    getFormFeedback initState = "Good" ∧
    getFormFeedback (resetState (pushupDetectRep initState emptyPose).1) ≠
      getFormFeedback initState := by
  have h := pushupDetectRep_missing initState emptyPose (Or.inl (getKeypoint_emptyPose 7))
  rw [h]
  refine ⟨rfl, rfl, ?_⟩
  decide

/-- Branch evaluation: a frame whose metric is below the end threshold
always lands in the down-phase feedback band. -/
theorem transStep_goesDown (endT startT : ℝ) (incomplete ready : String) (band : ℝ → String)
    (s : DetectorState) (θ : ℝ) (hθ : θ < endT) :
    transStep endT startT incomplete ready band s θ =
      ({ s with frameCount := s.frameCount + 1, lastAngle := θ,
                isInDownPosition := true, formQuality := band θ }, false) := by
  have hd : decide (θ < endT) = true := by simp [hθ]
  simp [transStep, hd]

/-- Branch evaluation: a not-down frame arriving while not in the down
phase produces the ready feedback. -/
theorem transStep_ready (endT startT : ℝ) (incomplete ready : String) (band : ℝ → String)
    (s : DetectorState) (θ : ℝ) (hdown : s.isInDownPosition = false) (hθ : ¬ θ < endT) :
    transStep endT startT incomplete ready band s θ =
      ({ s with frameCount := s.frameCount + 1, lastAngle := θ,
                isInDownPosition := false, formQuality := ready }, false) := by
  have hd : decide (θ < endT) = false := by simp [hθ]
  simp [transStep, hd, hdown]

/-- Branch evaluation: a qualifying down→up transition counts the rep. -/
theorem transStep_count (endT startT : ℝ) (incomplete ready : String) (band : ℝ → String)
    (s : DetectorState) (θ : ℝ) (hdown : s.isInDownPosition = true) (hθ : ¬ θ < endT)
    (hstart : startT < θ)
    (hgap : s.frameCount + 1 - s.lastRepFrameCount > framesBetweenReps) :
    transStep endT startT incomplete ready band s θ =
      ({ s with frameCount := s.frameCount + 1, lastAngle := θ,
                isInDownPosition := false, lastReps := s.lastReps + 1,
                lastRepFrameCount := s.frameCount + 1,
                formQuality := "Perfect! Rep counted" }, true) := by
  have hd : decide (θ < endT) = false := by simp [hθ]
  simp [transStep, hd, hdown, hstart, hgap]

/-- Branch evaluation: a down→up transition whose metric stays strictly
below the start threshold is rejected as incomplete. -/
theorem transStep_incomplete (endT startT : ℝ) (incomplete ready : String) (band : ℝ → String)
    (s : DetectorState) (θ : ℝ) (hdown : s.isInDownPosition = true) (hθ : ¬ θ < endT)
    (hlt : θ < startT) :
    transStep endT startT incomplete ready band s θ =
      ({ s with frameCount := s.frameCount + 1, lastAngle := θ,
                isInDownPosition := false, formQuality := incomplete }, false) := by
  have hd : decide (θ < endT) = false := by simp [hθ]
  have hns : ¬ startT < θ := by linarith
  simp [transStep, hd, hdown, hns, hlt]

/-- Branch evaluation: a down→up transition whose metric clears the start
threshold but fails the debounce gap leaves the feedback unchanged and
counts nothing. -/
theorem transStep_blocked (endT startT : ℝ) (incomplete ready : String) (band : ℝ → String)
    (s : DetectorState) (θ : ℝ) (hdown : s.isInDownPosition = true) (hθ : ¬ θ < endT)
    (hng : ¬ s.frameCount + 1 - s.lastRepFrameCount > framesBetweenReps)
    (hge : ¬ θ < startT) :
    transStep endT startT incomplete ready band s θ =
      ({ s with frameCount := s.frameCount + 1, lastAngle := θ,
                isInDownPosition := false }, false) := by
  have hd : decide (θ < endT) = false := by simp [hθ]
  simp [transStep, hd, hdown, hng, hge]

/-- A keypoint returned by the gated lookup is one of the pose's keypoints. -/
theorem getKeypoint_mem (p : Pose) (i : ℕ) (kp : Keypoint)
    (h : getKeypoint p i = some kp) : kp ∈ p.keypoints := by
  unfold getKeypoint at h
  rcases hpi : p.keypoints[i]? with _ | kp'
  · rw [hpi] at h
    exact absurd h (by simp)
  · rw [hpi] at h
    dsimp only at h
    split_ifs at h
    rw [Option.some.injEq] at h
    rw [← h]
    exact List.getElem?_mem hpi

/-- If every keypoint of the pose has score 1 and the left elbow is
present, the push-up aggregate confidence is 1. -/
theorem pushupConfidence_of_ones (p : Pose) (hs : ∀ kp ∈ p.keypoints, kp.score = 1)
    (h7 : getKeypoint p 7 ≠ none) : pushupConfidence p = 1 := by
  obtain ⟨le, hle⟩ := Option.ne_none_iff_exists'.mp h7
  refine getMeanConfidence_ones _ ?_ ⟨le, by rw [← hle]; simp⟩
  intro kp hk
  simp only [List.mem_cons, List.not_mem_nil, or_false] at hk
  rcases hk with h | h | h | h | h | h <;>
    exact hs kp (getKeypoint_mem p _ kp h.symm)

/-- A full-confidence pose with both elbows visible reduces the push-up
step to the shared transition evaluation at its elbow angle. -/
theorem pushupStep_ones (s : DetectorState) (p : Pose) (d : ℝ)
    (hang : pushupElbowAngle p = d)
    (hess : getKeypoint p 7 ≠ none ∧ getKeypoint p 8 ≠ none)
    (hs : ∀ kp ∈ p.keypoints, kp.score = 1) :
    pushupDetectRep s p =
      transStep pushupEndPositionThreshold pushupStartPositionThreshold
        "Incomplete rep - extend fully" "Ready - Lower your body" pushupBand s d := by
  have hc : ¬ pushupConfidence p < minFormQuality := by
    rw [pushupConfidence_of_ones p hs hess.1]
    norm_num [minFormQuality]
  rw [pushupDetectRep_char s p hess.1 hess.2 hc, hang]

/-- The push-up band feedback at angle 20. -/
theorem pushupBand_twenty : pushupBand (20:ℝ) = "Good form - go lower" := by
  norm_num [pushupBand]

/-- Incomplete-rep scenario: a full-confidence push-up angle sequence
[170, 20, 100, 170] yields no counted rep; the transition frame (100,
below the 150 start threshold) sets the incomplete feedback, and the final
frame returns to ready. -/
theorem pushupRun_incomplete_seq (p1 p2 p3 p4 : Pose)
    (ha1 : pushupElbowAngle p1 = 170)
    (he1 : getKeypoint p1 7 ≠ none ∧ getKeypoint p1 8 ≠ none)
    (hs1 : ∀ kp ∈ p1.keypoints, kp.score = 1)
    (ha2 : pushupElbowAngle p2 = 20)
    (he2 : getKeypoint p2 7 ≠ none ∧ getKeypoint p2 8 ≠ none)
    (hs2 : ∀ kp ∈ p2.keypoints, kp.score = 1)
    (ha3 : pushupElbowAngle p3 = 100)
    (he3 : getKeypoint p3 7 ≠ none ∧ getKeypoint p3 8 ≠ none)
    (hs3 : ∀ kp ∈ p3.keypoints, kp.score = 1)
    (ha4 : pushupElbowAngle p4 = 170)
    (he4 : getKeypoint p4 7 ≠ none ∧ getKeypoint p4 8 ≠ none)
    (hs4 : ∀ kp ∈ p4.keypoints, kp.score = 1) :
    (runSteps pushupDetectRep initState [p1, p2, p3, p4]).2 =
      [false, false, false, false] ∧
    getReps (runSteps pushupDetectRep initState [p1, p2, p3, p4]).1 = 0 ∧
    (runSteps pushupDetectRep initState [p1, p2, p3]).1.formQuality =
      "Incomplete rep - extend fully" := by
  have t1 : pushupDetectRep initState p1 =
      ({ lastReps := 0, isInDownPosition := false, lastAngle := 170,
         formQuality := "Ready - Lower your body", frameCount := 1,
         lastRepFrameCount := 0 }, false) := by
    rw [pushupStep_ones initState p1 170 ha1 he1 hs1,
      transStep_ready pushupEndPositionThreshold pushupStartPositionThreshold
        "Incomplete rep - extend fully" "Ready - Lower your body" pushupBand
        initState 170 rfl (by norm_num [pushupEndPositionThreshold])]
    rfl
  have t2 : pushupDetectRep
      { lastReps := 0, isInDownPosition := false, lastAngle := 170,
        formQuality := "Ready - Lower your body", frameCount := 1,
        lastRepFrameCount := 0 } p2 =
      ({ lastReps := 0, isInDownPosition := true, lastAngle := 20,
         formQuality := "Good form - go lower", frameCount := 2,
         lastRepFrameCount := 0 }, false) := by
    rw [pushupStep_ones _ p2 20 ha2 he2 hs2,
      transStep_goesDown pushupEndPositionThreshold pushupStartPositionThreshold
        "Incomplete rep - extend fully" "Ready - Lower your body" pushupBand
        _ 20 (by norm_num [pushupEndPositionThreshold]), pushupBand_twenty]
  have t3 : pushupDetectRep
      { lastReps := 0, isInDownPosition := true, lastAngle := 20,
        formQuality := "Good form - go lower", frameCount := 2,
        lastRepFrameCount := 0 } p3 =
      ({ lastReps := 0, isInDownPosition := false, lastAngle := 100,
         formQuality := "Incomplete rep - extend fully", frameCount := 3,
         lastRepFrameCount := 0 }, false) := by
    rw [pushupStep_ones _ p3 100 ha3 he3 hs3,
      transStep_incomplete pushupEndPositionThreshold pushupStartPositionThreshold
        "Incomplete rep - extend fully" "Ready - Lower your body" pushupBand
        _ 100 rfl (by norm_num [pushupEndPositionThreshold])
        (by norm_num [pushupStartPositionThreshold])]
  have t4 : pushupDetectRep
      { lastReps := 0, isInDownPosition := false, lastAngle := 100,
        formQuality := "Incomplete rep - extend fully", frameCount := 3,
        lastRepFrameCount := 0 } p4 =
      ({ lastReps := 0, isInDownPosition := false, lastAngle := 170,
         formQuality := "Ready - Lower your body", frameCount := 4,
         lastRepFrameCount := 0 }, false) := by
    rw [pushupStep_ones _ p4 170 ha4 he4 hs4,
      transStep_ready pushupEndPositionThreshold pushupStartPositionThreshold
        "Incomplete rep - extend fully" "Ready - Lower your body" pushupBand
        _ 170 rfl (by norm_num [pushupEndPositionThreshold])]
  refine ⟨?_, ?_, ?_⟩
  · simp only [runSteps_cons, runSteps_nil, t1, t2, t3, t4]
  · simp only [runSteps_cons, runSteps_nil, t1, t2, t3, t4, getReps]
  · simp only [runSteps_cons, runSteps_nil, t1, t2, t3]

/-- Branch evaluation: a down→up transition whose metric equals the start
threshold exactly counts nothing and leaves the feedback unchanged. -/
theorem transStep_at_threshold (endT startT : ℝ) (incomplete ready : String)
    (band : ℝ → String) (s : DetectorState) (θ : ℝ)
    (hdown : s.isInDownPosition = true) (hθ : ¬ θ < endT) (heq : θ = startT) :
    transStep endT startT incomplete ready band s θ =
      ({ s with frameCount := s.frameCount + 1, lastAngle := θ,
                isInDownPosition := false }, false) := by
  have hd : decide (θ < endT) = false := by simp [hθ]
  have h1 : ¬ startT < θ := by rw [heq]; exact lt_irrefl _
  have h2 : ¬ θ < startT := by rw [heq]; exact lt_irrefl _
  simp [transStep, hd, hdown, h1, h2]

/-- C5 (amended): for every variant, a gated-in down→up transition with a
metric strictly below the start threshold is not counted, sets the
incomplete feedback, and still flips the phase; a transition whose metric
equals the threshold exactly is also not counted and flips the phase but
leaves the feedback unchanged; and the push-up sequence [170, 20, 100, 170]
at full confidence counts no rep and shows the incomplete feedback on the
transition frame. -/
theorem incomplete_rep_no_count :
    (∀ (e : Exercise) (s : DetectorState) (p : Pose),
      essentialPresent e p → ¬ confidenceOf e p < minFormQuality →
      s.isInDownPosition = true → ¬ metricOf e p < endThreshold e →
      metricOf e p < startThreshold e →
      (detect e s p).2 = false ∧ (detect e s p).1.lastReps = s.lastReps ∧
      (detect e s p).1.formQuality = incompleteMsg e ∧
      (detect e s p).1.isInDownPosition = false) ∧
    (∀ (e : Exercise) (s : DetectorState) (p : Pose),
      essentialPresent e p → ¬ confidenceOf e p < minFormQuality →
      s.isInDownPosition = true → ¬ metricOf e p < endThreshold e →
      metricOf e p = startThreshold e →
      (detect e s p).2 = false ∧ (detect e s p).1.lastReps = s.lastReps ∧
      (detect e s p).1.formQuality = s.formQuality ∧
      (detect e s p).1.isInDownPosition = false) ∧
    (∀ p1 p2 p3 p4 : Pose,
      pushupElbowAngle p1 = 170 →
      (getKeypoint p1 7 ≠ none ∧ getKeypoint p1 8 ≠ none) →
      (∀ kp ∈ p1.keypoints, kp.score = 1) →
      pushupElbowAngle p2 = 20 →
      (getKeypoint p2 7 ≠ none ∧ getKeypoint p2 8 ≠ none) →
      (∀ kp ∈ p2.keypoints, kp.score = 1) →
      pushupElbowAngle p3 = 100 →
      (getKeypoint p3 7 ≠ none ∧ getKeypoint p3 8 ≠ none) →
      (∀ kp ∈ p3.keypoints, kp.score = 1) →
      pushupElbowAngle p4 = 170 →
      (getKeypoint p4 7 ≠ none ∧ getKeypoint p4 8 ≠ none) →
      (∀ kp ∈ p4.keypoints, kp.score = 1) →
      (runSteps pushupDetectRep initState [p1, p2, p3, p4]).2 =
        [false, false, false, false] ∧
      getReps (runSteps pushupDetectRep initState [p1, p2, p3, p4]).1 = 0 ∧
      (runSteps pushupDetectRep initState [p1, p2, p3]).1.formQuality =
        "Incomplete rep - extend fully") := by
  refine ⟨?_, ?_, ?_⟩
  · intro e s p he hc hdown hend hlt
    rw [detect_char e s p he hc,
      transStep_incomplete (endThreshold e) (startThreshold e) (incompleteMsg e)
        (readyMsg e) (bandOf e) s (metricOf e p) hdown hend hlt]
    exact ⟨rfl, rfl, rfl, rfl⟩
  · intro e s p he hc hdown hend heq
    rw [detect_char e s p he hc,
      transStep_at_threshold (endThreshold e) (startThreshold e) (incompleteMsg e)
        (readyMsg e) (bandOf e) s (metricOf e p) hdown hend heq]
    exact ⟨rfl, rfl, rfl, rfl⟩
  · intro p1 p2 p3 p4 ha1 he1 hs1 ha2 he2 hs2 ha3 he3 hs3 ha4 he4 hs4
    exact pushupRun_incomplete_seq p1 p2 p3 p4 ha1 he1 hs1 ha2 he2 hs2 ha3 he3 hs3
      ha4 he4 hs4

/-- A mid-session push-up state in the down phase with a remembered
down-band feedback string, used for the exact-threshold transition. -/
def edgeState : DetectorState :=
  { lastReps := 0, isInDownPosition := true, lastAngle := 20,
    formQuality := "Perfect form! Keep going", frameCount := 3, lastRepFrameCount := 0 }

/-- A down→up transition at exactly the 150-degree start threshold: the
metric does not clear the threshold, yet the feedback is NOT set to the
incomplete message (it keeps its previous value), refuting the claim that
every non-clearing transition sets the incomplete feedback. -/
theorem threshold_transition_keeps_feedback :
    edgeState.isInDownPosition = true ∧
    pushupElbowAngle (degPose 150) = pushupStartPositionThreshold ∧
    ¬ pushupElbowAngle (degPose 150) < pushupEndPositionThreshold ∧
    ¬ pushupConfidence (degPose 150) < minFormQuality ∧
    (pushupDetectRep edgeState (degPose 150)).2 = false ∧
    (pushupDetectRep edgeState (degPose 150)).1.isInDownPosition = false ∧
    (pushupDetectRep edgeState (degPose 150)).1.formQuality =
      "Perfect form! Keep going" ∧
    (pushupDetectRep edgeState (degPose 150)).1.formQuality ≠
      "Incomplete rep - extend fully" := by
  have hang : pushupElbowAngle (degPose 150) = 150 :=
    pushupElbowAngle_degPose 150 (by norm_num) (by norm_num)
  have hc : ¬ pushupConfidence (degPose 150) < minFormQuality := by
    rw [pushupConfidence_degPose]
    norm_num [minFormQuality]
  have hchar := pushupDetectRep_char edgeState (degPose 150)
    (degPose_essential 150).1 (degPose_essential 150).2 hc
  have hstep : pushupDetectRep edgeState (degPose 150) =
      ({ edgeState with frameCount := edgeState.frameCount + 1, lastAngle := 150,
                        isInDownPosition := false }, false) := by
    rw [hchar, hang,
      transStep_at_threshold pushupEndPositionThreshold pushupStartPositionThreshold
        "Incomplete rep - extend fully" "Ready - Lower your body" pushupBand
        edgeState 150 rfl (by norm_num [pushupEndPositionThreshold])
        (by norm_num [pushupStartPositionThreshold])]
  rw [hstep]
  refine ⟨rfl, ?_, ?_, hc, rfl, rfl, rfl, by decide⟩
  · rw [hang]; norm_num [pushupStartPositionThreshold]
  · rw [hang]; norm_num [pushupEndPositionThreshold]

/-- Instances of the incomplete-rep theorem: a 100-degree transition sets
the incomplete feedback; a 150-degree transition keeps the old feedback;
the concrete [170, 20, 100, 170] run counts nothing. -/
theorem incomplete_rep_no_count_witness :
    (detect Exercise.pushup gapTenState (degPose 100)).1.formQuality =
      incompleteMsg Exercise.pushup ∧
    (detect Exercise.pushup edgeState (degPose 150)).1.formQuality =
      edgeState.formQuality ∧
    getReps (runSteps pushupDetectRep initState
      [degPose 170, degPose 20, degPose 100, degPose 170]).1 = 0 := by
  refine ⟨?_, ?_, ?_⟩
  · refine ((incomplete_rep_no_count.1 Exercise.pushup gapTenState (degPose 100))
      (degPose_essential 100) ?_ rfl ?_ ?_).2.2.1
    · show ¬ pushupConfidence (degPose 100) < minFormQuality
      rw [pushupConfidence_degPose]
      norm_num [minFormQuality]
    · show ¬ pushupElbowAngle (degPose 100) < pushupEndPositionThreshold
      rw [pushupElbowAngle_degPose 100 (by norm_num) (by norm_num)]
      norm_num [pushupEndPositionThreshold]
    · show pushupElbowAngle (degPose 100) < pushupStartPositionThreshold
      rw [pushupElbowAngle_degPose 100 (by norm_num) (by norm_num)]
      norm_num [pushupStartPositionThreshold]
  · refine ((incomplete_rep_no_count.2.1 Exercise.pushup edgeState (degPose 150))
      (degPose_essential 150) ?_ rfl ?_ ?_).2.2.1
    · show ¬ pushupConfidence (degPose 150) < minFormQuality
      rw [pushupConfidence_degPose]
      norm_num [minFormQuality]
    · show ¬ pushupElbowAngle (degPose 150) < pushupEndPositionThreshold
      rw [pushupElbowAngle_degPose 150 (by norm_num) (by norm_num)]
      norm_num [pushupEndPositionThreshold]
    · show pushupElbowAngle (degPose 150) = pushupStartPositionThreshold
      rw [pushupElbowAngle_degPose 150 (by norm_num) (by norm_num)]
      norm_num [pushupStartPositionThreshold]
  · exact (incomplete_rep_no_count.2.2 (degPose 170) (degPose 20) (degPose 100)
      (degPose 170)
      (pushupElbowAngle_degPose 170 (by norm_num) (by norm_num))
      (degPose_essential 170) (degPose_scores 170)
      (pushupElbowAngle_degPose 20 (by norm_num) (by norm_num))
      (degPose_essential 20) (degPose_scores 20)
      (pushupElbowAngle_degPose 100 (by norm_num) (by norm_num))
      (degPose_essential 100) (degPose_scores 100)
      (pushupElbowAngle_degPose 170 (by norm_num) (by norm_num))
      (degPose_essential 170) (degPose_scores 170)).2.1

/-- The push-up band feedback at angle 15. -/
theorem pushupBand_fifteen : pushupBand (15:ℝ) = "Good form - go lower" := by
  norm_num [pushupBand]

/-- End-to-end scenario: a full-confidence push-up angle sequence
[170, 160, 20, 15, 160, 170] fed to a fresh detector returns false on all
six frames and counts no rep: the down→up transition on the 5th frame is
rejected by the debounce guard (only 5 frames since session start, and the
guard needs strictly more than 10), leaving the feedback at the last down
band. -/
theorem pushupRun_scenario_seq (p1 p2 p3 p4 p5 p6 : Pose)
    (ha1 : pushupElbowAngle p1 = 170)
    (he1 : getKeypoint p1 7 ≠ none ∧ getKeypoint p1 8 ≠ none)
    (hs1 : ∀ kp ∈ p1.keypoints, kp.score = 1)
    (ha2 : pushupElbowAngle p2 = 160)
    (he2 : getKeypoint p2 7 ≠ none ∧ getKeypoint p2 8 ≠ none)
    (hs2 : ∀ kp ∈ p2.keypoints, kp.score = 1)
    (ha3 : pushupElbowAngle p3 = 20)
    (he3 : getKeypoint p3 7 ≠ none ∧ getKeypoint p3 8 ≠ none)
    (hs3 : ∀ kp ∈ p3.keypoints, kp.score = 1)
    (ha4 : pushupElbowAngle p4 = 15)
    (he4 : getKeypoint p4 7 ≠ none ∧ getKeypoint p4 8 ≠ none)
    (hs4 : ∀ kp ∈ p4.keypoints, kp.score = 1)
    (ha5 : pushupElbowAngle p5 = 160)
    (he5 : getKeypoint p5 7 ≠ none ∧ getKeypoint p5 8 ≠ none)
    (hs5 : ∀ kp ∈ p5.keypoints, kp.score = 1)
    (ha6 : pushupElbowAngle p6 = 170)
    (he6 : getKeypoint p6 7 ≠ none ∧ getKeypoint p6 8 ≠ none)
    (hs6 : ∀ kp ∈ p6.keypoints, kp.score = 1) :
    (runSteps pushupDetectRep initState [p1, p2, p3, p4, p5, p6]).2 =
      [false, false, false, false, false, false] ∧
    getReps (runSteps pushupDetectRep initState [p1, p2, p3, p4, p5, p6]).1 = 0 ∧
    (runSteps pushupDetectRep initState [p1, p2, p3, p4, p5]).1.formQuality =
      "Good form - go lower" := by
  have t1 : pushupDetectRep initState p1 =
      ({ lastReps := 0, isInDownPosition := false, lastAngle := 170,
         formQuality := "Ready - Lower your body", frameCount := 1,
         lastRepFrameCount := 0 }, false) := by
    rw [pushupStep_ones initState p1 170 ha1 he1 hs1,
      transStep_ready pushupEndPositionThreshold pushupStartPositionThreshold
        "Incomplete rep - extend fully" "Ready - Lower your body" pushupBand
        initState 170 rfl (by norm_num [pushupEndPositionThreshold])]
    rfl
  have t2 : pushupDetectRep
      { lastReps := 0, isInDownPosition := false, lastAngle := 170,
        formQuality := "Ready - Lower your body", frameCount := 1,
        lastRepFrameCount := 0 } p2 =
      ({ lastReps := 0, isInDownPosition := false, lastAngle := 160,
         formQuality := "Ready - Lower your body", frameCount := 2,
         lastRepFrameCount := 0 }, false) := by
    rw [pushupStep_ones _ p2 160 ha2 he2 hs2,
      transStep_ready pushupEndPositionThreshold pushupStartPositionThreshold
        "Incomplete rep - extend fully" "Ready - Lower your body" pushupBand
        _ 160 rfl (by norm_num [pushupEndPositionThreshold])]
  have t3 : pushupDetectRep
      { lastReps := 0, isInDownPosition := false, lastAngle := 160,
        formQuality := "Ready - Lower your body", frameCount := 2,
        lastRepFrameCount := 0 } p3 =
      ({ lastReps := 0, isInDownPosition := true, lastAngle := 20,
         formQuality := "Good form - go lower", frameCount := 3,
         lastRepFrameCount := 0 }, false) := by
    rw [pushupStep_ones _ p3 20 ha3 he3 hs3,
      transStep_goesDown pushupEndPositionThreshold pushupStartPositionThreshold
        "Incomplete rep - extend fully" "Ready - Lower your body" pushupBand
        _ 20 (by norm_num [pushupEndPositionThreshold]), pushupBand_twenty]
  have t4 : pushupDetectRep
      { lastReps := 0, isInDownPosition := true, lastAngle := 20,
        formQuality := "Good form - go lower", frameCount := 3,
        lastRepFrameCount := 0 } p4 =
      ({ lastReps := 0, isInDownPosition := true, lastAngle := 15,
         formQuality := "Good form - go lower", frameCount := 4,
         lastRepFrameCount := 0 }, false) := by
    rw [pushupStep_ones _ p4 15 ha4 he4 hs4,
      transStep_goesDown pushupEndPositionThreshold pushupStartPositionThreshold
        "Incomplete rep - extend fully" "Ready - Lower your body" pushupBand
        _ 15 (by norm_num [pushupEndPositionThreshold]), pushupBand_fifteen]
  have t5 : pushupDetectRep
      { lastReps := 0, isInDownPosition := true, lastAngle := 15,
        formQuality := "Good form - go lower", frameCount := 4,
        lastRepFrameCount := 0 } p5 =
      ({ lastReps := 0, isInDownPosition := false, lastAngle := 160,
         formQuality := "Good form - go lower", frameCount := 5,
         lastRepFrameCount := 0 }, false) := by
    rw [pushupStep_ones _ p5 160 ha5 he5 hs5,
      transStep_blocked pushupEndPositionThreshold pushupStartPositionThreshold
        "Incomplete rep - extend fully" "Ready - Lower your body" pushupBand
        _ 160 rfl (by norm_num [pushupEndPositionThreshold])
        (by norm_num [framesBetweenReps])
        (by norm_num [pushupStartPositionThreshold])]
  have t6 : pushupDetectRep
      { lastReps := 0, isInDownPosition := false, lastAngle := 160,
        formQuality := "Good form - go lower", frameCount := 5,
        lastRepFrameCount := 0 } p6 =
      ({ lastReps := 0, isInDownPosition := false, lastAngle := 170,
         formQuality := "Ready - Lower your body", frameCount := 6,
         lastRepFrameCount := 0 }, false) := by
    rw [pushupStep_ones _ p6 170 ha6 he6 hs6,
      transStep_ready pushupEndPositionThreshold pushupStartPositionThreshold
        "Incomplete rep - extend fully" "Ready - Lower your body" pushupBand
        _ 170 rfl (by norm_num [pushupEndPositionThreshold])]
  refine ⟨?_, ?_, ?_⟩
  · simp only [runSteps_cons, runSteps_nil, t1, t2, t3, t4, t5, t6]
  · simp only [runSteps_cons, runSteps_nil, t1, t2, t3, t4, t5, t6, getReps]
  · simp only [runSteps_cons, runSteps_nil, t1, t2, t3, t4, t5]

/-- The claimed end-to-end scenario fails on the code: concrete poses whose
elbow angles are exactly [170, 160, 20, 15, 160, 170] at confidence 1 give
false on every frame — in particular on the 5th — and a final rep count of
0, not 1, because only 5 frames have elapsed and the debounce guard
requires strictly more than 10 since lastRepFrameCount (initially 0). -/
theorem pushup_scenario_first_rep_debounced :
    pushupElbowAngle (degPose 170) = 170 ∧
    pushupElbowAngle (degPose 160) = 160 ∧
    pushupElbowAngle (degPose 20) = 20 ∧
    pushupElbowAngle (degPose 15) = 15 ∧
    pushupConfidence (degPose 170) = 1 ∧
    pushupConfidence (degPose 160) = 1 ∧
    pushupConfidence (degPose 20) = 1 ∧
    pushupConfidence (degPose 15) = 1 ∧
    (runSteps pushupDetectRep initState
      [degPose 170, degPose 160, degPose 20, degPose 15, degPose 160, degPose 170]).2 =
      [false, false, false, false, false, false] ∧
    getReps (runSteps pushupDetectRep initState
      [degPose 170, degPose 160, degPose 20, degPose 15, degPose 160, degPose 170]).1 =
      0 := by
  have hrun := pushupRun_scenario_seq (degPose 170) (degPose 160) (degPose 20)
    (degPose 15) (degPose 160) (degPose 170)
    (pushupElbowAngle_degPose 170 (by norm_num) (by norm_num))
    (degPose_essential 170) (degPose_scores 170)
    (pushupElbowAngle_degPose 160 (by norm_num) (by norm_num))
    (degPose_essential 160) (degPose_scores 160)
    (pushupElbowAngle_degPose 20 (by norm_num) (by norm_num))
    (degPose_essential 20) (degPose_scores 20)
    (pushupElbowAngle_degPose 15 (by norm_num) (by norm_num))
    (degPose_essential 15) (degPose_scores 15)
    (pushupElbowAngle_degPose 160 (by norm_num) (by norm_num))
    (degPose_essential 160) (degPose_scores 160)
    (pushupElbowAngle_degPose 170 (by norm_num) (by norm_num))
    (degPose_essential 170) (degPose_scores 170)
  exact ⟨pushupElbowAngle_degPose 170 (by norm_num) (by norm_num),
    pushupElbowAngle_degPose 160 (by norm_num) (by norm_num),
    pushupElbowAngle_degPose 20 (by norm_num) (by norm_num),
    pushupElbowAngle_degPose 15 (by norm_num) (by norm_num),
    pushupConfidence_degPose 170, pushupConfidence_degPose 160,
    pushupConfidence_degPose 20, pushupConfidence_degPose 15,
    hrun.1, hrun.2.1⟩

/-- C1 (amended): feeding a fresh push-up detector six full-confidence
poses whose elbow angles are [170, 160, 20, 15, 160, 170], one frame
apart, yields ZERO counted reps: detectRep returns false on every frame,
the 5th-frame down→up transition being rejected by the debounce guard
(frameCount - lastRepFrameCount = 5, not strictly greater than 10 from a
fresh start), and the feedback after the 5th frame remains the down band
"Good form - go lower" rather than "Perfect! Rep counted". -/
theorem pushup_scenario_zero_reps (p1 p2 p3 p4 p5 p6 : Pose)
    (ha1 : pushupElbowAngle p1 = 170)
    (he1 : getKeypoint p1 7 ≠ none ∧ getKeypoint p1 8 ≠ none)
    (hs1 : ∀ kp ∈ p1.keypoints, kp.score = 1)
    (ha2 : pushupElbowAngle p2 = 160)
    (he2 : getKeypoint p2 7 ≠ none ∧ getKeypoint p2 8 ≠ none)
    (hs2 : ∀ kp ∈ p2.keypoints, kp.score = 1)
    (ha3 : pushupElbowAngle p3 = 20)
    (he3 : getKeypoint p3 7 ≠ none ∧ getKeypoint p3 8 ≠ none)
    (hs3 : ∀ kp ∈ p3.keypoints, kp.score = 1)
    (ha4 : pushupElbowAngle p4 = 15)
    (he4 : getKeypoint p4 7 ≠ none ∧ getKeypoint p4 8 ≠ none)
    (hs4 : ∀ kp ∈ p4.keypoints, kp.score = 1)
    (ha5 : pushupElbowAngle p5 = 160)
    (he5 : getKeypoint p5 7 ≠ none ∧ getKeypoint p5 8 ≠ none)
    (hs5 : ∀ kp ∈ p5.keypoints, kp.score = 1)
    (ha6 : pushupElbowAngle p6 = 170)
    (he6 : getKeypoint p6 7 ≠ none ∧ getKeypoint p6 8 ≠ none)
    (hs6 : ∀ kp ∈ p6.keypoints, kp.score = 1) :
    (runSteps pushupDetectRep initState [p1, p2, p3, p4, p5, p6]).2 =
      [false, false, false, false, false, false] ∧
    getReps (runSteps pushupDetectRep initState [p1, p2, p3, p4, p5, p6]).1 = 0 ∧
    (runSteps pushupDetectRep initState [p1, p2, p3, p4, p5]).1.formQuality =
      "Good form - go lower" :=
  pushupRun_scenario_seq p1 p2 p3 p4 p5 p6 ha1 he1 hs1 ha2 he2 hs2 ha3 he3 hs3
    ha4 he4 hs4 ha5 he5 hs5 ha6 he6 hs6

/-- Instance of the amended scenario on the concrete degree poses. -/
theorem pushup_scenario_zero_reps_witness :
    getReps (runSteps pushupDetectRep initState
      [degPose 170, degPose 160, degPose 20, degPose 15, degPose 160, degPose 170]).1 =
      0 ∧
    (runSteps pushupDetectRep initState
      [degPose 170, degPose 160, degPose 20, degPose 15, degPose 160]).1.formQuality =
      "Good form - go lower" := by
  have h := pushup_scenario_zero_reps (degPose 170) (degPose 160) (degPose 20)
    (degPose 15) (degPose 160) (degPose 170)
    (pushupElbowAngle_degPose 170 (by norm_num) (by norm_num))
    (degPose_essential 170) (degPose_scores 170)
    (pushupElbowAngle_degPose 160 (by norm_num) (by norm_num))
    (degPose_essential 160) (degPose_scores 160)
    (pushupElbowAngle_degPose 20 (by norm_num) (by norm_num))
    (degPose_essential 20) (degPose_scores 20)
    (pushupElbowAngle_degPose 15 (by norm_num) (by norm_num))
    (degPose_essential 15) (degPose_scores 15)
    (pushupElbowAngle_degPose 160 (by norm_num) (by norm_num))
    (degPose_essential 160) (degPose_scores 160)
    (pushupElbowAngle_degPose 170 (by norm_num) (by norm_num))
    (degPose_essential 170) (degPose_scores 170)
  exact ⟨h.2.1, h.2.2⟩

/-- A pose whose left and right hip/knee/ankle triples both form the planar
angle θ at the knee, every score 1. -/
noncomputable def squatAnglePose (θ : ℝ) : Pose :=
  { keypoints := [kpt 0 0, kpt 0 0, kpt 0 0, kpt 0 0, kpt 0 0, kpt 0 0,
      kpt 0 0, kpt 0 0, kpt 0 0, kpt 0 0, kpt 0 0,
      kpt 1 0, kpt 1 0, kpt 0 0, kpt 0 0,
      kpt (Real.cos θ) (Real.sin θ), kpt (Real.cos θ) (Real.sin θ)], score := 1 }

/-- A pose whose knee angle evaluates to d degrees (for 0 ≤ d ≤ 180). -/
noncomputable def squatDegPose (d : ℝ) : Pose := squatAnglePose (d * (Real.pi / 180))

/-- Landmark 11 of a `squatAnglePose`. -/
theorem squatAnglePose_gk11 (θ : ℝ) :
    getKeypoint (squatAnglePose θ) 11 = some (kpt 1 0) := by
  norm_num [getKeypoint, squatAnglePose, kpt]

/-- Landmark 12 of a `squatAnglePose`. -/
theorem squatAnglePose_gk12 (θ : ℝ) :
    getKeypoint (squatAnglePose θ) 12 = some (kpt 1 0) := by
  norm_num [getKeypoint, squatAnglePose, kpt]

/-- Landmark 13 of a `squatAnglePose`. -/
theorem squatAnglePose_gk13 (θ : ℝ) :
    getKeypoint (squatAnglePose θ) 13 = some (kpt 0 0) := by
  norm_num [getKeypoint, squatAnglePose, kpt]

/-- Landmark 14 of a `squatAnglePose`. -/
theorem squatAnglePose_gk14 (θ : ℝ) :
    getKeypoint (squatAnglePose θ) 14 = some (kpt 0 0) := by
  norm_num [getKeypoint, squatAnglePose, kpt]

/-- Landmark 15 of a `squatAnglePose`. -/
theorem squatAnglePose_gk15 (θ : ℝ) :
    getKeypoint (squatAnglePose θ) 15 = some (kpt (Real.cos θ) (Real.sin θ)) := by
  norm_num [getKeypoint, squatAnglePose, kpt]

/-- Landmark 16 of a `squatAnglePose`. -/
theorem squatAnglePose_gk16 (θ : ℝ) :
    getKeypoint (squatAnglePose θ) 16 = some (kpt (Real.cos θ) (Real.sin θ)) := by
  norm_num [getKeypoint, squatAnglePose, kpt]

/-- The knee metric of a `squatAnglePose` is θ in degrees. -/
theorem squatKneeAngle_squatAnglePose (θ : ℝ) (h0 : 0 ≤ θ) (h1 : θ ≤ Real.pi) :
    squatKneeAngle (squatAnglePose θ) = θ * (180 / Real.pi) := by
  have hle : θ * (180 / Real.pi) ≤ 180 := by
    refine le_trans (mul_le_mul_of_nonneg_right h1 (by positivity)) (le_of_eq ?_)
    rw [mul_comm, div_mul_cancel₀ _ Real.pi_ne_zero]
  unfold squatKneeAngle
  simp only [squatAnglePose_gk11, squatAnglePose_gk12, squatAnglePose_gk13,
    squatAnglePose_gk14, squatAnglePose_gk15, squatAnglePose_gk16]
  rw [calculateAngle_unit θ h0 h1, min_eq_right hle, min_self]

/-- The aggregate confidence of a `squatAnglePose` is 1. -/
theorem squatConfidence_squatAnglePose (θ : ℝ) :
    squatConfidence (squatAnglePose θ) = 1 := by
  unfold squatConfidence
  simp only [squatAnglePose_gk11, squatAnglePose_gk12, squatAnglePose_gk13,
    squatAnglePose_gk14, squatAnglePose_gk15, squatAnglePose_gk16]
  refine getMeanConfidence_ones _ ?_ ⟨kpt 1 0, by simp⟩
  intro kp hk
  simp only [List.mem_cons, List.not_mem_nil, or_false, Option.some.injEq] at hk
  rcases hk with h | h | h | h | h | h <;> rw [h] <;> rfl

/-- The knee metric of `squatDegPose d` is exactly d for 0 ≤ d ≤ 180. -/
theorem squatKneeAngle_degPose (d : ℝ) (h0 : 0 ≤ d) (h1 : d ≤ 180) :
    squatKneeAngle (squatDegPose d) = d := by
  have hθ0 : 0 ≤ d * (Real.pi / 180) := mul_nonneg h0 (by positivity)
  have hθ1 : d * (Real.pi / 180) ≤ Real.pi := by
    refine le_trans (mul_le_mul_of_nonneg_right h1 (by positivity)) (le_of_eq ?_)
    rw [mul_comm, div_mul_cancel₀ _ (by norm_num : (180:ℝ) ≠ 0)]
  unfold squatDegPose
  rw [squatKneeAngle_squatAnglePose _ hθ0 hθ1]
  field_simp

/-- The essential landmarks of `squatDegPose d` are present. -/
theorem squatDegPose_essential (d : ℝ) :
    getKeypoint (squatDegPose d) 13 ≠ none ∧ getKeypoint (squatDegPose d) 14 ≠ none := by
  unfold squatDegPose
  rw [squatAnglePose_gk13, squatAnglePose_gk14]
  simp

/-- A pose whose sit-up torso metric evaluates to d (for 0 ≤ d ≤ 180):
nose at height d/50 above the midpoint of the hips, every score 1. -/
noncomputable def situpPose (d : ℝ) : Pose :=
  { keypoints := [kpt 0 (d / 50), kpt 0 0, kpt 0 0, kpt 0 0, kpt 0 0, kpt 0 0,
      kpt 0 0, kpt 0 0, kpt 0 0, kpt 0 0, kpt 0 0,
      kpt (-1) 0, kpt 1 0], score := 1 }

/-- Landmark 0 of a `situpPose`. -/
theorem situpPose_gk0 (d : ℝ) : getKeypoint (situpPose d) 0 = some (kpt 0 (d / 50)) := by
  norm_num [getKeypoint, situpPose, kpt]

/-- Landmark 5 of a `situpPose`. -/
theorem situpPose_gk5 (d : ℝ) : getKeypoint (situpPose d) 5 = some (kpt 0 0) := by
  norm_num [getKeypoint, situpPose, kpt]

/-- Landmark 6 of a `situpPose`. -/
theorem situpPose_gk6 (d : ℝ) : getKeypoint (situpPose d) 6 = some (kpt 0 0) := by
  norm_num [getKeypoint, situpPose, kpt]

/-- Landmark 11 of a `situpPose`. -/
theorem situpPose_gk11 (d : ℝ) : getKeypoint (situpPose d) 11 = some (kpt (-1) 0) := by
  norm_num [getKeypoint, situpPose, kpt]

/-- Landmark 12 of a `situpPose`. -/
theorem situpPose_gk12 (d : ℝ) : getKeypoint (situpPose d) 12 = some (kpt 1 0) := by
  norm_num [getKeypoint, situpPose, kpt]

/-- The torso metric of `situpPose d` is exactly d for 0 ≤ d ≤ 180. -/
theorem situpNormalizedAngle_situpPose (d : ℝ) (h0 : 0 ≤ d) (h1 : d ≤ 180) :
    situpNormalizedAngle (situpPose d) = d := by
  unfold situpNormalizedAngle
  simp only [situpPose_gk0, situpPose_gk11, situpPose_gk12]
  have hmid : calculateDistance (kpt 0 (d / 50))
      { x := ((-1:ℝ) + 1) / 2, y := ((0:ℝ) + 0) / 2, score := 0.5 } = d / 50 := by
    unfold calculateDistance
    show Real.sqrt (((0:ℝ) - ((-1) + 1) / 2) ^ 2 + (d / 50 - (0 + 0) / 2) ^ 2) = d / 50
    have : ((0:ℝ) - ((-1) + 1) / 2) ^ 2 + (d / 50 - (0 + 0) / 2) ^ 2 = (d / 50) ^ 2 := by
      ring
    rw [this, Real.sqrt_sq (by positivity)]
  show min (calculateDistance (kpt 0 (d / 50))
      { x := ((-1:ℝ) + 1) / 2, y := ((0:ℝ) + 0) / 2, score := 0.5 } * 50) 180 = d
  rw [hmid]
  have : d / 50 * 50 = d := by field_simp
  rw [this, min_eq_left h1]

/-- The aggregate confidence of a `situpPose` is 1. -/
theorem situpConfidence_situpPose (d : ℝ) : situpConfidence (situpPose d) = 1 := by
  unfold situpConfidence
  simp only [situpPose_gk0, situpPose_gk5, situpPose_gk6, situpPose_gk11, situpPose_gk12]
  refine getMeanConfidence_ones _ ?_ ⟨kpt 1 0, by simp⟩
  intro kp hk
  simp only [List.mem_cons, List.not_mem_nil, or_false, Option.some.injEq] at hk
  rcases hk with h | h | h | h | h <;> rw [h] <;> rfl

/-- The essential landmarks of `situpPose d` are present. -/
theorem situpPose_essential (d : ℝ) :
    getKeypoint (situpPose d) 0 ≠ none ∧ getKeypoint (situpPose d) 11 ≠ none ∧
      getKeypoint (situpPose d) 12 ≠ none := by
  rw [situpPose_gk0, situpPose_gk11, situpPose_gk12]
  simp

/-- The push-up step on `degPose d` is the transition evaluation at d. -/
theorem pushupStep_degPose (s : DetectorState) (d : ℝ) (h0 : 0 ≤ d) (h1 : d ≤ 180) :
    pushupDetectRep s (degPose d) =
      transStep pushupEndPositionThreshold pushupStartPositionThreshold
        "Incomplete rep - extend fully" "Ready - Lower your body" pushupBand s d := by
  have hc : ¬ pushupConfidence (degPose d) < minFormQuality := by
    rw [pushupConfidence_degPose]
    norm_num [minFormQuality]
  rw [pushupDetectRep_char s _ (degPose_essential d).1 (degPose_essential d).2 hc,
    pushupElbowAngle_degPose d h0 h1]

/-- The squat step on `squatDegPose d` is the transition evaluation at d. -/
theorem squatStep_degPose (s : DetectorState) (d : ℝ) (h0 : 0 ≤ d) (h1 : d ≤ 180) :
    squatDetectRep s (squatDegPose d) =
      transStep squatEndPositionThreshold squatStartPositionThreshold
        "Incomplete rep - stand up fully" "Ready - Squat down" squatBand s d := by
  have hc : ¬ squatConfidence (squatDegPose d) < minFormQuality := by
    show ¬ squatConfidence (squatAnglePose (d * (Real.pi / 180))) < minFormQuality
    rw [squatConfidence_squatAnglePose]
    norm_num [minFormQuality]
  rw [squatDetectRep_char s _ (squatDegPose_essential d).1 (squatDegPose_essential d).2 hc,
    squatKneeAngle_degPose d h0 h1]

/-- The sit-up step on `situpPose d` is the transition evaluation at d. -/
theorem situpStep_pose (s : DetectorState) (d : ℝ) (h0 : 0 ≤ d) (h1 : d ≤ 180) :
    situpDetectRep s (situpPose d) =
      transStep situpEndPositionThreshold situpStartPositionThreshold
        "Incomplete rep - lie back fully" "Ready - Curl up" situpBand s d := by
  have hc : ¬ situpConfidence (situpPose d) < minFormQuality := by
    rw [situpConfidence_situpPose]
    norm_num [minFormQuality]
  rw [situpDetectRep_char s _ (situpPose_essential d).1 (situpPose_essential d).2.1
    (situpPose_essential d).2.2 hc, situpNormalizedAngle_situpPose d h0 h1]

/-- The squat band feedback at angle 70. -/
theorem squatBand_seventy : squatBand (70:ℝ) = "Excellent depth!" := by
  norm_num [squatBand]

/-- The sit-up band feedback at metric 50. -/
theorem situpBand_fifty : situpBand (50:ℝ) = "Great curl! Complete it" := by
  norm_num [situpBand]

/-- Holding one steady pose: if a pose maps each state of an indexed family
to the next (returning false), running n copies advances the index by n. -/
theorem runSteps_hold (step : DetectorState → Pose → DetectorState × Bool) (p : Pose)
    (g : ℕ → DetectorState)
    (hstep : ∀ k, step (g k) p = (g (k + 1), false)) :
    ∀ (n k : ℕ), runSteps step (g k) (List.replicate n p) =
      (g (k + n), List.replicate n false) := by
  intro n
  induction n with
  | zero => intro k; simp [runSteps_nil]
  | succ n ih =>
    intro k
    rw [List.replicate_succ, runSteps_cons, hstep k]
    have harith : k + 1 + n = k + (n + 1) := by omega
    rw [ih (k + 1), harith]
    simp [List.replicate_succ]

/-- Indexed family of held-down states used for steady down phases. -/
def downHoldState (fq : String) (ang : ℝ) (k : ℕ) : DetectorState :=
  { lastReps := 0, isInDownPosition := true, lastAngle := ang,
    formQuality := fq, frameCount := k, lastRepFrameCount := 0 }

/-- Eleven-frame push-up session from fresh: ten down frames then a full
extension; the rep is counted exactly on the 11th call. -/
theorem pushupRun_eleven :
    (runSteps pushupDetectRep initState
      (degPose 20 :: (List.replicate 9 (degPose 20) ++ [degPose 170]))).2 =
      List.replicate 10 false ++ [true] ∧
    getReps (runSteps pushupDetectRep initState
      (degPose 20 :: (List.replicate 9 (degPose 20) ++ [degPose 170]))).1 = 1 := by
  have hstep : ∀ k : ℕ, pushupDetectRep (downHoldState "Good form - go lower" 20 k)
      (degPose 20) = (downHoldState "Good form - go lower" 20 (k + 1), false) := by
    intro k
    rw [pushupStep_degPose _ 20 (by norm_num) (by norm_num),
      transStep_goesDown pushupEndPositionThreshold pushupStartPositionThreshold
        "Incomplete rep - extend fully" "Ready - Lower your body" pushupBand
        _ 20 (by norm_num [pushupEndPositionThreshold]), pushupBand_twenty]
    rfl
  have t1 : pushupDetectRep initState (degPose 20) =
      (downHoldState "Good form - go lower" 20 1, false) := by
    rw [pushupStep_degPose _ 20 (by norm_num) (by norm_num),
      transStep_goesDown pushupEndPositionThreshold pushupStartPositionThreshold
        "Incomplete rep - extend fully" "Ready - Lower your body" pushupBand
        _ 20 (by norm_num [pushupEndPositionThreshold]), pushupBand_twenty]
    rfl
  have thold := runSteps_hold pushupDetectRep (degPose 20)
    (downHoldState "Good form - go lower" 20) hstep 9 1
  have tcount : pushupDetectRep (downHoldState "Good form - go lower" 20 10)
      (degPose 170) =
      ({ lastReps := 1, isInDownPosition := false, lastAngle := 170,
         formQuality := "Perfect! Rep counted", frameCount := 11,
         lastRepFrameCount := 11 }, true) := by
    rw [pushupStep_degPose _ 170 (by norm_num) (by norm_num),
      transStep_count pushupEndPositionThreshold pushupStartPositionThreshold
        "Incomplete rep - extend fully" "Ready - Lower your body" pushupBand
        _ 170 rfl (by norm_num [pushupEndPositionThreshold])
        (by norm_num [pushupStartPositionThreshold])
        (by norm_num [framesBetweenReps, downHoldState])]
    rfl
  constructor
  · simp only [runSteps_cons, runSteps_nil, runSteps_append, t1, thold, tcount]
    rfl
  · simp only [runSteps_cons, runSteps_nil, runSteps_append, t1, thold, tcount, getReps]

/-- Eleven-frame squat session from fresh: ten deep frames then a full
stand; the rep is counted exactly on the 11th call. -/
theorem squatRun_eleven :
    (runSteps squatDetectRep initState
      (squatDegPose 70 :: (List.replicate 9 (squatDegPose 70) ++ [squatDegPose 150]))).2 =
      List.replicate 10 false ++ [true] ∧
    getReps (runSteps squatDetectRep initState
      (squatDegPose 70 :: (List.replicate 9 (squatDegPose 70) ++ [squatDegPose 150]))).1 =
      1 := by
  have hstep : ∀ k : ℕ, squatDetectRep (downHoldState "Excellent depth!" 70 k)
      (squatDegPose 70) = (downHoldState "Excellent depth!" 70 (k + 1), false) := by
    intro k
    rw [squatStep_degPose _ 70 (by norm_num) (by norm_num),
      transStep_goesDown squatEndPositionThreshold squatStartPositionThreshold
        "Incomplete rep - stand up fully" "Ready - Squat down" squatBand
        _ 70 (by norm_num [squatEndPositionThreshold]), squatBand_seventy]
    rfl
  have t1 : squatDetectRep initState (squatDegPose 70) =
      (downHoldState "Excellent depth!" 70 1, false) := by
    rw [squatStep_degPose _ 70 (by norm_num) (by norm_num),
      transStep_goesDown squatEndPositionThreshold squatStartPositionThreshold
        "Incomplete rep - stand up fully" "Ready - Squat down" squatBand
        _ 70 (by norm_num [squatEndPositionThreshold]), squatBand_seventy]
    rfl
  have thold := runSteps_hold squatDetectRep (squatDegPose 70)
    (downHoldState "Excellent depth!" 70) hstep 9 1
  have tcount : squatDetectRep (downHoldState "Excellent depth!" 70 10)
      (squatDegPose 150) =
      ({ lastReps := 1, isInDownPosition := false, lastAngle := 150,
         formQuality := "Perfect! Rep counted", frameCount := 11,
         lastRepFrameCount := 11 }, true) := by
    rw [squatStep_degPose _ 150 (by norm_num) (by norm_num),
      transStep_count squatEndPositionThreshold squatStartPositionThreshold
        "Incomplete rep - stand up fully" "Ready - Squat down" squatBand
        _ 150 rfl (by norm_num [squatEndPositionThreshold])
        (by norm_num [squatStartPositionThreshold])
        (by norm_num [framesBetweenReps, downHoldState])]
    rfl
  constructor
  · simp only [runSteps_cons, runSteps_nil, runSteps_append, t1, thold, tcount]
    rfl
  · simp only [runSteps_cons, runSteps_nil, runSteps_append, t1, thold, tcount, getReps]

/-- Eleven-frame sit-up session from fresh: ten curled frames then a full
recline; the rep is counted exactly on the 11th call. -/
theorem situpRun_eleven :
    (runSteps situpDetectRep initState
      (situpPose 50 :: (List.replicate 9 (situpPose 50) ++ [situpPose 150]))).2 =
      List.replicate 10 false ++ [true] ∧
    getReps (runSteps situpDetectRep initState
      (situpPose 50 :: (List.replicate 9 (situpPose 50) ++ [situpPose 150]))).1 = 1 := by
  have hstep : ∀ k : ℕ, situpDetectRep (downHoldState "Great curl! Complete it" 50 k)
      (situpPose 50) = (downHoldState "Great curl! Complete it" 50 (k + 1), false) := by
    intro k
    rw [situpStep_pose _ 50 (by norm_num) (by norm_num),
      transStep_goesDown situpEndPositionThreshold situpStartPositionThreshold
        "Incomplete rep - lie back fully" "Ready - Curl up" situpBand
        _ 50 (by norm_num [situpEndPositionThreshold]), situpBand_fifty]
    rfl
  have t1 : situpDetectRep initState (situpPose 50) =
      (downHoldState "Great curl! Complete it" 50 1, false) := by
    rw [situpStep_pose _ 50 (by norm_num) (by norm_num),
      transStep_goesDown situpEndPositionThreshold situpStartPositionThreshold
        "Incomplete rep - lie back fully" "Ready - Curl up" situpBand
        _ 50 (by norm_num [situpEndPositionThreshold]), situpBand_fifty]
    rfl
  have thold := runSteps_hold situpDetectRep (situpPose 50)
    (downHoldState "Great curl! Complete it" 50) hstep 9 1
  have tcount : situpDetectRep (downHoldState "Great curl! Complete it" 50 10)
      (situpPose 150) =
      ({ lastReps := 1, isInDownPosition := false, lastAngle := 150,
         formQuality := "Perfect! Rep counted", frameCount := 11,
         lastRepFrameCount := 11 }, true) := by
    rw [situpStep_pose _ 150 (by norm_num) (by norm_num),
      transStep_count situpEndPositionThreshold situpStartPositionThreshold
        "Incomplete rep - lie back fully" "Ready - Curl up" situpBand
        _ 150 rfl (by norm_num [situpEndPositionThreshold])
        (by norm_num [situpStartPositionThreshold])
        (by norm_num [framesBetweenReps, downHoldState])]
    rfl
  constructor
  · simp only [runSteps_cons, runSteps_nil, runSteps_append, t1, thold, tcount]
    rfl
  · simp only [runSteps_cons, runSteps_nil, runSteps_append, t1, thold, tcount, getReps]

/-- From a state with cleared frame counters, no call within the first
`framesBetweenReps` frames can return true. -/
theorem no_rep_in_prefix (e : Exercise) :
    ∀ (l : List Pose) (s : DetectorState),
      s.frameCount + l.length ≤ framesBetweenReps → s.lastRepFrameCount = 0 →
      ∀ b ∈ (runSteps (detect e) s l).2, b = false := by
  intro l
  induction l with
  | nil =>
    intro s _ _ b hb
    rw [runSteps_nil] at hb
    exact absurd hb (List.not_mem_nil b)
  | cons p ps ih =>
    intro s hlen hzero b hb
    rw [runSteps_cons] at hb
    rcases List.mem_cons.mp hb with hb | hb
    · rcases detect_cases e s p with ⟨hf, -, -⟩ | ⟨-, -, -, hgap, -⟩
      · rw [hb, hf]
      · exfalso
        rw [hzero] at hgap
        rw [List.length_cons] at hlen
        simp only [framesBetweenReps] at hlen hgap
        omega
    · refine ih (detect e s p).1 ?_ ?_ b hb
      · rw [detect_frameCount]
        rw [List.length_cons] at hlen
        omega
      · rcases detect_cases e s p with ⟨-, -, hl⟩ | ⟨-, -, -, hgap, -⟩
        · rw [hl, hzero]
        · exfalso
          rw [hzero] at hgap
          rw [List.length_cons] at hlen
          simp only [framesBetweenReps] at hlen hgap
          omega

/-- C9: for every detector variant, starting from a fresh (or just reset)
state no rep is ever counted during the first 10 detectRep calls, whatever
the poses; and for each variant there is an 11-frame pose sequence whose
11th call does return true, so the 11th call is the earliest possible. -/
theorem warmup_no_reps :
    (∀ (e : Exercise) (s : DetectorState) (l : List Pose),
      s.frameCount = 0 → s.lastRepFrameCount = 0 → l.length ≤ framesBetweenReps →
      ∀ b ∈ (runSteps (detect e) s l).2, b = false) ∧
    (∃ l : List Pose, l.length = 11 ∧
      (runSteps (detect Exercise.pushup) initState l).2 =
        List.replicate 10 false ++ [true] ∧
      getReps (runSteps (detect Exercise.pushup) initState l).1 = 1) ∧
    (∃ l : List Pose, l.length = 11 ∧
      (runSteps (detect Exercise.squat) initState l).2 =
        List.replicate 10 false ++ [true] ∧
      getReps (runSteps (detect Exercise.squat) initState l).1 = 1) ∧
    (∃ l : List Pose, l.length = 11 ∧
      (runSteps (detect Exercise.situp) initState l).2 =
        List.replicate 10 false ++ [true] ∧
      getReps (runSteps (detect Exercise.situp) initState l).1 = 1) := by
  refine ⟨?_, ?_, ?_, ?_⟩
  · intro e s l hfc hzero hlen
    refine no_rep_in_prefix e l s ?_ hzero
    rw [hfc]
    omega
  · refine ⟨degPose 20 :: (List.replicate 9 (degPose 20) ++ [degPose 170]), by simp, ?_, ?_⟩
    · exact pushupRun_eleven.1
    · exact pushupRun_eleven.2
  · refine ⟨squatDegPose 70 :: (List.replicate 9 (squatDegPose 70) ++ [squatDegPose 150]),
      by simp, ?_, ?_⟩
    · exact squatRun_eleven.1
    · exact squatRun_eleven.2
  · refine ⟨situpPose 50 :: (List.replicate 9 (situpPose 50) ++ [situpPose 150]),
      by simp, ?_, ?_⟩
    · exact situpRun_eleven.1
    · exact situpRun_eleven.2

/-- Instance of the warm-up theorem: the very first call of a fresh push-up
session returns false. -/
theorem warmup_no_reps_witness :
    (runSteps (detect Exercise.pushup) initState [emptyPose]).2 = [false] := by
  have h := warmup_no_reps.1 Exercise.pushup initState [emptyPose] rfl rfl
    (by simp [framesBetweenReps])
  simp only [runSteps_cons, runSteps_nil] at h ⊢
  rw [h (detect Exercise.pushup initState emptyPose).2 (by simp)]
